import Mathlib

/-!
# SubmitEZ — verification of the spec against the source

A shallow embedding of the SubmitEZ backend core (domain models,
validation service, extraction merge, PDF field resolution/formatting)
translated from the Python source under src/backend/app, together with
theorems settling the frozen claims about it.

Conventions of the embedding:
* Python Decimal values are modelled as exact rationals (ℚ); Python dates
  and datetimes are modelled as integers under their natural linear order
  (only comparison, subtraction and "render to a non-empty string" are
  used by the embedded code).
* Python float arithmetic is modelled faithfully: a binary64 value is kept
  as the exact rational it denotes, and every arithmetic step rounds its
  exact rational result to the nearest binary64 (ties to even) via
  pyRound64 below, exactly as IEEE-754 prescribes for the normal range
  (the embedded computations never leave the normal range).
* Python int() truncation on a non-negative float is Int.floor; pytrunc
  below handles the general sign convention (truncate toward zero).
* Python dictionaries appear as association lists in insertion order.
* Python truthiness is modelled per type: None/0/0.0/empty string/empty
  list/empty dict are falsy, everything else truthy.
-/

attribute [local semireducible] Rat.mul Rat.add Rat.sub Rat.inv

set_option maxRecDepth 100000

/-- Model of a Python/JSON value as it appears in extracted data
dictionaries, entity to_dict outputs, and the PDF resolver input. -/
inductive Val where
  | vnone : Val
  | vstr : String → Val
  | vint : Int → Val
  | vnum : ℚ → Val
  | vbool : Bool → Val
  | vdatetime : Int → Val
  | vlist : List Val → Val
  | vdict : List (String × Val) → Val

/-- Python truthiness of a value. -/
def Val.truthy : Val → Bool
  | .vnone => false
  | .vstr s => s ≠ ""
  | .vint n => n ≠ 0
  | .vnum q => q ≠ 0
  | .vbool b => b
  | .vdatetime _ => true
  | .vlist xs => ¬ xs.isEmpty
  | .vdict kvs => ¬ kvs.isEmpty

/-- Python str() of a value. Rendering of floats and datetimes is
abstracted to an unspecified but fixed non-empty rendering; the claims
never depend on those two renderings. -/
def Val.pyStr : Val → String
  | .vnone => "None"
  | .vstr s => s
  | .vint n => toString n
  | .vnum q => "float:" ++ toString q
  | .vbool b => if b then "True" else "False"
  | .vdatetime d => "datetime:" ++ toString d
  | .vlist _ => "list:..."
  | .vdict _ => "dict:..."

/-! ## Binary64 (Python float) arithmetic on exact rationals -/

/-- Floor of log₂ n for n ≥ 1 (0 otherwise), by fuel-bounded recursion. -/
def natLog2 : Nat → Nat → Nat
  | 0, _ => 0
  | _, 0 => 0
  | _, 1 => 0
  | fuel + 1, n => 1 + natLog2 fuel (n / 2)

/-- Multiply a rational by 2^k for an integer k. -/
def mulPow2 (q : ℚ) (k : Int) : ℚ :=
  if 0 ≤ k then q * (2 : ℚ) ^ k.toNat else q / (2 : ℚ) ^ (-k).toNat

/-- Floor of log₂ q for a positive rational q ≥ 2^-120. -/
def qlog2 (q : ℚ) : Int :=
  (natLog2 400 (Int.toNat ⌊mulPow2 q 120⌋) : Int) - 120

/-- Round a rational to the nearest integer, ties to even. -/
def rndTiesEven (q : ℚ) : Int :=
  let n := ⌊q⌋
  if q - (n : ℚ) < 1 / 2 then n
  else if (1 : ℚ) / 2 < q - (n : ℚ) then n + 1
  else if n % 2 = 0 then n else n + 1

/-- Round a positive rational to the nearest binary64 value (as the exact
rational that the binary64 value denotes). -/
def pyRound64Pos (q : ℚ) : ℚ :=
  let e := qlog2 q
  mulPow2 (rndTiesEven (mulPow2 q (52 - e)) : ℚ) (e - 52)

/-- Round a rational to the nearest binary64 value (normal range). -/
def pyRound64 (q : ℚ) : ℚ :=
  if q = 0 then 0
  else if q < 0 then -pyRound64Pos (-q)
  else pyRound64Pos q

/-- Python float division a / b (IEEE binary64, round to nearest even). -/
def pyDiv (a b : ℚ) : ℚ := pyRound64 (a / b)

/-- Python float multiplication a * b (IEEE binary64). -/
def pyMul (a b : ℚ) : ℚ := pyRound64 (a * b)

/-- Python int() truncation of a float toward zero. -/
def pytrunc (q : ℚ) : Int := if 0 ≤ q then ⌊q⌋ else -⌊-q⌋

/-- The binary64 value of the Python literal 0.3. -/
def lit03 : ℚ := pyRound64 (3 / 10)

/-- The binary64 value of the Python literal 0.25 (exact). -/
def lit025 : ℚ := pyRound64 (1 / 4)

/-- The binary64 value of the Python literal 0.1. -/
def lit01 : ℚ := pyRound64 (1 / 10)

/-! ## Python string primitives

Python str.split, str.replace, str.strip and str.upper are modelled
directly on character lists by structural (fuel-bounded) recursion; the
fuel is always at least the string length plus one, which the scans
never exhaust. ASCII behaviour matches Python; exotic Unicode casing
and whitespace are outside the model. -/

/-- Left-to-right non-overlapping split on a non-empty separator. -/
def chSplit (sep : List Char) : Nat → List Char → List Char →
    List (List Char)
  | 0, acc, rest => [acc.reverse ++ rest]
  | _ + 1, acc, [] => [acc.reverse]
  | fuel + 1, acc, c :: cs =>
    if sep.isPrefixOf (c :: cs) then
      acc.reverse :: chSplit sep fuel [] ((c :: cs).drop sep.length)
    else chSplit sep fuel (c :: acc) cs

/-- Python s.split(sep) for a non-empty separator. -/
def pySplit (s sep : String) : List String :=
  (chSplit sep.toList (s.toList.length + 1) [] s.toList).map
    (fun cs => String.mk cs)

/-- Split at the first separator occurrence, keeping the remainder
whole. -/
def chSplitFirst (sep : List Char) : Nat → List Char → List Char →
    List Char × Option (List Char)
  | 0, acc, rest => (acc.reverse ++ rest, none)
  | _ + 1, acc, [] => (acc.reverse, none)
  | fuel + 1, acc, c :: cs =>
    if sep.isPrefixOf (c :: cs) then
      (acc.reverse, some ((c :: cs).drop sep.length))
    else chSplitFirst sep fuel (c :: acc) cs

/-- Python s.split(sep, 1): the head part and, when the separator
occurs, the untouched remainder. -/
def pySplitFirst (s sep : String) : String × Option String :=
  let r := chSplitFirst sep.toList (s.toList.length + 1) [] s.toList
  (String.mk r.1, r.2.map (fun cs => String.mk cs))

/-- Left-to-right non-overlapping replacement. -/
def chReplace (oldSep newSep : List Char) : Nat → List Char → List Char
  | 0, l => l
  | _ + 1, [] => []
  | fuel + 1, c :: cs =>
    if oldSep.isPrefixOf (c :: cs) then
      newSep ++ chReplace oldSep newSep fuel ((c :: cs).drop oldSep.length)
    else c :: chReplace oldSep newSep fuel cs

/-- Python s.replace(old, new) for a non-empty pattern. -/
def pyReplace (s oldSep newSep : String) : String :=
  String.mk (chReplace oldSep.toList newSep.toList (s.toList.length + 1)
    s.toList)

/-- Python s.strip(): drop leading and trailing whitespace. -/
def pyStrip (s : String) : String :=
  String.mk
    (((s.toList.dropWhile Char.isWhitespace).reverse.dropWhile
      Char.isWhitespace).reverse)

/-- Python s.upper() (ASCII). -/
def pyUpper (s : String) : String := String.mk (s.toList.map Char.toUpper)

/-- Python (c in s) for a single character. -/
def pyContainsChar (s : String) (c : Char) : Bool := s.toList.contains c

/-! ## Truthiness helpers for model fields -/

/-- Truthiness of an optional string (None and the empty string are falsy). -/
def tStr : Option String → Bool
  | none => false
  | some s => s ≠ ""

/-- Truthiness of an optional integer (None and 0 are falsy). -/
def tInt : Option Int → Bool
  | none => false
  | some n => n ≠ 0

/-- Truthiness of an optional Decimal/float (None and 0 are falsy). -/
def tQ : Option ℚ → Bool
  | none => false
  | some q => q ≠ 0

/-- Encode an optional string field for to_dict. -/
def vOptStr : Option String → Val
  | none => .vnone
  | some s => .vstr s

/-- Encode an optional integer field for to_dict. -/
def vOptInt : Option Int → Val
  | none => .vnone
  | some n => .vint n

/-- Encode an optional Decimal field for to_dict (converted to float;
the embedded Decimal values are exact rationals, so the conversion is
the identity here). -/
def vOptQ : Option ℚ → Val
  | none => .vnone
  | some q => .vnum q

/-- Encode an optional bool field for to_dict. -/
def vOptBool : Option Bool → Val
  | none => .vnone
  | some b => .vbool b

/-- ISO rendering of a model date; abstracted to a fixed non-empty
rendering (the embedded code only ever tests it for None / emptiness). -/
def isoDate (d : Int) : String := "date:" ++ toString d

/-- Encode an optional date field for to_dict (isoformat string). -/
def vOptDate : Option Int → Val
  | none => .vnone
  | some d => .vstr (isoDate d)

/-! ## Domain model: Applicant (src/backend/app/domain/models/applicant.py) -/

/-- The Applicant dataclass. Field order and defaults follow the source. -/
structure Applicant where
  business_name : String
  fein : Option String := none
  dba_name : Option String := none
  naics_code : Option String := none
  naics_description : Option String := none
  business_type : Option String := none
  years_in_business : Option Int := none
  description : Option String := none
  contact_name : Option String := none
  contact_title : Option String := none
  email : Option String := none
  phone : Option String := none
  fax : Option String := none
  website : Option String := none
  mailing_address_line1 : Option String := none
  mailing_address_line2 : Option String := none
  mailing_city : Option String := none
  mailing_state : Option String := none
  mailing_zip : Option String := none
  mailing_country : String := "USA"
  physical_address_line1 : Option String := none
  physical_address_line2 : Option String := none
  physical_city : Option String := none
  physical_state : Option String := none
  physical_zip : Option String := none
  physical_country : String := "USA"
  metadata : List (String × Val) := []

/-- Applicant.to_dict (dataclasses.asdict): all fields in declaration
order. -/
def Applicant.toDict (a : Applicant) : List (String × Val) :=
  [ ("business_name", .vstr a.business_name),
    ("fein", vOptStr a.fein),
    ("dba_name", vOptStr a.dba_name),
    ("naics_code", vOptStr a.naics_code),
    ("naics_description", vOptStr a.naics_description),
    ("business_type", vOptStr a.business_type),
    ("years_in_business", vOptInt a.years_in_business),
    ("description", vOptStr a.description),
    ("contact_name", vOptStr a.contact_name),
    ("contact_title", vOptStr a.contact_title),
    ("email", vOptStr a.email),
    ("phone", vOptStr a.phone),
    ("fax", vOptStr a.fax),
    ("website", vOptStr a.website),
    ("mailing_address_line1", vOptStr a.mailing_address_line1),
    ("mailing_address_line2", vOptStr a.mailing_address_line2),
    ("mailing_city", vOptStr a.mailing_city),
    ("mailing_state", vOptStr a.mailing_state),
    ("mailing_zip", vOptStr a.mailing_zip),
    ("mailing_country", .vstr a.mailing_country),
    ("physical_address_line1", vOptStr a.physical_address_line1),
    ("physical_address_line2", vOptStr a.physical_address_line2),
    ("physical_city", vOptStr a.physical_city),
    ("physical_state", vOptStr a.physical_state),
    ("physical_zip", vOptStr a.physical_zip),
    ("physical_country", .vstr a.physical_country),
    ("metadata", .vdict a.metadata) ]

/-- Applicant.has_complete_mailing_address. -/
def Applicant.hasCompleteMailingAddress (a : Applicant) : Bool :=
  tStr a.mailing_address_line1 && tStr a.mailing_city &&
    tStr a.mailing_state && tStr a.mailing_zip

/-- Applicant.has_complete_physical_address. -/
def Applicant.hasCompletePhysicalAddress (a : Applicant) : Bool :=
  tStr a.physical_address_line1 && tStr a.physical_city &&
    tStr a.physical_state && tStr a.physical_zip

/-- Applicant.is_complete. -/
def Applicant.isComplete (a : Applicant) : Bool :=
  (a.business_name ≠ "") && (tStr a.fein || tStr a.naics_code) &&
    (a.hasCompleteMailingAddress || a.hasCompletePhysicalAddress)

/-- Applicant.get_missing_fields. -/
def Applicant.getMissingFields (a : Applicant) : List String :=
  (if !(a.business_name ≠ "") then ["business_name"] else []) ++
  (if !tStr a.fein && !tStr a.naics_code then ["fein_or_naics_code"] else []) ++
  (if !a.hasCompleteMailingAddress && !a.hasCompletePhysicalAddress then
    ["complete_address"] else [])

/-! ## Domain model: PropertyLocation
(src/backend/app/domain/models/property_location.py) -/

/-- The PropertyLocation dataclass. Field order and defaults follow the
source. -/
structure PropertyLocation where
  location_number : Option String := none
  address_line1 : String := ""
  address_line2 : Option String := none
  city : String := ""
  state : String := ""
  zip_code : String := ""
  country : String := "USA"
  county : Option String := none
  building_description : Option String := none
  year_built : Option Int := none
  construction_type : Option String := none
  number_of_stories : Option Int := none
  total_square_feet : Option Int := none
  occupancy_type : Option String := none
  protection_class : Option String := none
  distance_to_fire_station : Option ℚ := none
  distance_to_hydrant : Option Int := none
  sprinkler_system : Option Bool := none
  alarm_system : Option Bool := none
  security_system : Option Bool := none
  fire_alarm : Option Bool := none
  burglar_alarm : Option Bool := none
  building_value : Option ℚ := none
  contents_value : Option ℚ := none
  business_income_value : Option ℚ := none
  total_insured_value : Option ℚ := none
  basement : Option Bool := none
  basement_finished : Option Bool := none
  roof_type : Option String := none
  roof_year : Option Int := none
  heating_type : Option String := none
  cooling_type : Option String := none
  electrical_year : Option Int := none
  plumbing_year : Option Int := none
  updates_wiring : Option Bool := none
  updates_plumbing : Option Bool := none
  updates_heating : Option Bool := none
  updates_roof : Option Bool := none
  prior_losses : Option Bool := none
  number_of_employees : Option Int := none
  hours_of_operation : Option String := none
  metadata : List (String × Val) := []

/-- PropertyLocation.calculate_total_insured_value: sums the truthy
monetary components (Decimal('0') and None both contribute nothing). -/
def PropertyLocation.calculateTIV (p : PropertyLocation) : ℚ :=
  (if tQ p.building_value then p.building_value.getD 0 else 0) +
  (if tQ p.contents_value then p.contents_value.getD 0 else 0) +
  (if tQ p.business_income_value then p.business_income_value.getD 0 else 0)

/-- Strip an optional string field in place (PropertyLocation
__post_init__ strips only truthy strings). -/
def stripOpt : Option String → Option String
  | none => none
  | some s => if s ≠ "" then some (pyStrip s) else some s

/-- Strip a plain string field in place (only if truthy). -/
def stripStr (s : String) : String := if s ≠ "" then pyStrip s else s

/-- PropertyLocation.__post_init__: strip whitespace on the listed string
fields, uppercase the state code, and compute TIV when it was not
supplied (is None). -/
def PropertyLocation.postInit (p : PropertyLocation) : PropertyLocation :=
  let p := { p with
    location_number := stripOpt p.location_number,
    address_line1 := stripStr p.address_line1,
    address_line2 := stripOpt p.address_line2,
    city := stripStr p.city,
    state := stripStr p.state,
    zip_code := stripStr p.zip_code,
    country := stripStr p.country,
    county := stripOpt p.county,
    building_description := stripOpt p.building_description,
    construction_type := stripOpt p.construction_type,
    occupancy_type := stripOpt p.occupancy_type,
    protection_class := stripOpt p.protection_class,
    roof_type := stripOpt p.roof_type,
    heating_type := stripOpt p.heating_type,
    cooling_type := stripOpt p.cooling_type,
    hours_of_operation := stripOpt p.hours_of_operation }
  let p := if p.state ≠ "" then { p with state := pyUpper p.state } else p
  if p.total_insured_value = none then
    { p with total_insured_value := some p.calculateTIV }
  else p

/-- PropertyLocation.to_dict: asdict with the four Decimal monetary
fields converted to float. -/
def PropertyLocation.toDict (p : PropertyLocation) : List (String × Val) :=
  [ ("location_number", vOptStr p.location_number),
    ("address_line1", .vstr p.address_line1),
    ("address_line2", vOptStr p.address_line2),
    ("city", .vstr p.city),
    ("state", .vstr p.state),
    ("zip_code", .vstr p.zip_code),
    ("country", .vstr p.country),
    ("county", vOptStr p.county),
    ("building_description", vOptStr p.building_description),
    ("year_built", vOptInt p.year_built),
    ("construction_type", vOptStr p.construction_type),
    ("number_of_stories", vOptInt p.number_of_stories),
    ("total_square_feet", vOptInt p.total_square_feet),
    ("occupancy_type", vOptStr p.occupancy_type),
    ("protection_class", vOptStr p.protection_class),
    ("distance_to_fire_station", vOptQ p.distance_to_fire_station),
    ("distance_to_hydrant", vOptInt p.distance_to_hydrant),
    ("sprinkler_system", vOptBool p.sprinkler_system),
    ("alarm_system", vOptBool p.alarm_system),
    ("security_system", vOptBool p.security_system),
    ("fire_alarm", vOptBool p.fire_alarm),
    ("burglar_alarm", vOptBool p.burglar_alarm),
    ("building_value", vOptQ p.building_value),
    ("contents_value", vOptQ p.contents_value),
    ("business_income_value", vOptQ p.business_income_value),
    ("total_insured_value", vOptQ p.total_insured_value),
    ("basement", vOptBool p.basement),
    ("basement_finished", vOptBool p.basement_finished),
    ("roof_type", vOptStr p.roof_type),
    ("roof_year", vOptInt p.roof_year),
    ("heating_type", vOptStr p.heating_type),
    ("cooling_type", vOptStr p.cooling_type),
    ("electrical_year", vOptInt p.electrical_year),
    ("plumbing_year", vOptInt p.plumbing_year),
    ("updates_wiring", vOptBool p.updates_wiring),
    ("updates_plumbing", vOptBool p.updates_plumbing),
    ("updates_heating", vOptBool p.updates_heating),
    ("updates_roof", vOptBool p.updates_roof),
    ("prior_losses", vOptBool p.prior_losses),
    ("number_of_employees", vOptInt p.number_of_employees),
    ("hours_of_operation", vOptStr p.hours_of_operation),
    ("metadata", .vdict p.metadata) ]

/-- PropertyLocation.has_complete_address. -/
def PropertyLocation.hasCompleteAddress (p : PropertyLocation) : Bool :=
  (p.address_line1 ≠ "") && (p.city ≠ "") && (p.state ≠ "") && (p.zip_code ≠ "")

/-- PropertyLocation.is_complete. -/
def PropertyLocation.isComplete (p : PropertyLocation) : Bool :=
  p.hasCompleteAddress && p.year_built.isSome && p.construction_type.isSome &&
    p.occupancy_type.isSome && p.total_square_feet.isSome &&
    (p.total_insured_value.isSome && 0 < p.total_insured_value.getD 0)

/-- PropertyLocation.get_missing_fields. -/
def PropertyLocation.getMissingFields (p : PropertyLocation) : List String :=
  (if !p.hasCompleteAddress then ["complete_address"] else []) ++
  (if p.year_built = none then ["year_built"] else []) ++
  (if !tStr p.construction_type then ["construction_type"] else []) ++
  (if !tStr p.occupancy_type then ["occupancy_type"] else []) ++
  (if p.total_square_feet = none then ["total_square_feet"] else []) ++
  (if !tQ p.total_insured_value || p.total_insured_value.getD 0 ≤ 0 then
    ["total_insured_value"] else [])

/-! ## Domain model: Coverage (src/backend/app/domain/models/coverage.py) -/

/-- The Coverage dataclass. Field order and defaults follow the source. -/
structure Coverage where
  policy_type : Option String := none
  effective_date : Option Int := none
  expiration_date : Option Int := none
  policy_term_months : Option Int := some 12
  building_limit : Option ℚ := none
  contents_limit : Option ℚ := none
  business_income_limit : Option ℚ := none
  extra_expense_limit : Option ℚ := none
  equipment_breakdown_limit : Option ℚ := none
  building_deductible : Option ℚ := none
  contents_deductible : Option ℚ := none
  business_income_deductible : Option String := none
  wind_hail_deductible : Option String := none
  flood_deductible : Option ℚ := none
  earthquake_deductible : Option String := none
  all_other_perils_deductible : Option ℚ := none
  general_aggregate_limit : Option ℚ := none
  products_aggregate_limit : Option ℚ := none
  each_occurrence_limit : Option ℚ := none
  personal_injury_limit : Option ℚ := none
  medical_payments_limit : Option ℚ := none
  damage_to_premises_limit : Option ℚ := none
  property_in_transit : Option ℚ := none
  accounts_receivable : Option ℚ := none
  valuable_papers : Option ℚ := none
  fine_arts : Option ℚ := none
  signs : Option ℚ := none
  outdoor_property : Option ℚ := none
  debris_removal : Option ℚ := none
  pollutant_cleanup : Option ℚ := none
  spoilage : Option ℚ := none
  replacement_cost : Option Bool := none
  actual_cash_value : Option Bool := none
  agreed_value : Option Bool := none
  blanket_coverage : Option Bool := none
  inflation_guard : Option Bool := none
  coinsurance_percentage : Option Int := none
  coinsurance_waived : Option Bool := none
  ordinance_or_law_coverage : Option ℚ := none
  utility_services_time_element : Option ℚ := none
  electronic_data : Option ℚ := none
  employee_dishonesty : Option ℚ := none
  forgery : Option ℚ := none
  flood_coverage : Option Bool := none
  earthquake_coverage : Option Bool := none
  terrorism_coverage : Option Bool := none
  cyber_coverage : Option Bool := none
  estimated_annual_premium : Option ℚ := none
  premium_basis : Option String := none
  premium_basis_amount : Option ℚ := none
  special_conditions : Option String := none
  exclusions : List String := []
  endorsements : List String := []
  metadata : List (String × Val) := []

/-- Coverage.to_dict: asdict with the listed Decimal fields converted to
float and the two dates converted to ISO strings. -/
def Coverage.toDict (c : Coverage) : List (String × Val) :=
  [ ("policy_type", vOptStr c.policy_type),
    ("effective_date", vOptDate c.effective_date),
    ("expiration_date", vOptDate c.expiration_date),
    ("policy_term_months", vOptInt c.policy_term_months),
    ("building_limit", vOptQ c.building_limit),
    ("contents_limit", vOptQ c.contents_limit),
    ("business_income_limit", vOptQ c.business_income_limit),
    ("extra_expense_limit", vOptQ c.extra_expense_limit),
    ("equipment_breakdown_limit", vOptQ c.equipment_breakdown_limit),
    ("building_deductible", vOptQ c.building_deductible),
    ("contents_deductible", vOptQ c.contents_deductible),
    ("business_income_deductible", vOptStr c.business_income_deductible),
    ("wind_hail_deductible", vOptStr c.wind_hail_deductible),
    ("flood_deductible", vOptQ c.flood_deductible),
    ("earthquake_deductible", vOptStr c.earthquake_deductible),
    ("all_other_perils_deductible", vOptQ c.all_other_perils_deductible),
    ("general_aggregate_limit", vOptQ c.general_aggregate_limit),
    ("products_aggregate_limit", vOptQ c.products_aggregate_limit),
    ("each_occurrence_limit", vOptQ c.each_occurrence_limit),
    ("personal_injury_limit", vOptQ c.personal_injury_limit),
    ("medical_payments_limit", vOptQ c.medical_payments_limit),
    ("damage_to_premises_limit", vOptQ c.damage_to_premises_limit),
    ("property_in_transit", vOptQ c.property_in_transit),
    ("accounts_receivable", vOptQ c.accounts_receivable),
    ("valuable_papers", vOptQ c.valuable_papers),
    ("fine_arts", vOptQ c.fine_arts),
    ("signs", vOptQ c.signs),
    ("outdoor_property", vOptQ c.outdoor_property),
    ("debris_removal", vOptQ c.debris_removal),
    ("pollutant_cleanup", vOptQ c.pollutant_cleanup),
    ("spoilage", vOptQ c.spoilage),
    ("replacement_cost", vOptBool c.replacement_cost),
    ("actual_cash_value", vOptBool c.actual_cash_value),
    ("agreed_value", vOptBool c.agreed_value),
    ("blanket_coverage", vOptBool c.blanket_coverage),
    ("inflation_guard", vOptBool c.inflation_guard),
    ("coinsurance_percentage", vOptInt c.coinsurance_percentage),
    ("coinsurance_waived", vOptBool c.coinsurance_waived),
    ("ordinance_or_law_coverage", vOptQ c.ordinance_or_law_coverage),
    ("utility_services_time_element", vOptQ c.utility_services_time_element),
    ("electronic_data", vOptQ c.electronic_data),
    ("employee_dishonesty", vOptQ c.employee_dishonesty),
    ("forgery", vOptQ c.forgery),
    ("flood_coverage", vOptBool c.flood_coverage),
    ("earthquake_coverage", vOptBool c.earthquake_coverage),
    ("terrorism_coverage", vOptBool c.terrorism_coverage),
    ("cyber_coverage", vOptBool c.cyber_coverage),
    ("estimated_annual_premium", vOptQ c.estimated_annual_premium),
    ("premium_basis", vOptStr c.premium_basis),
    ("premium_basis_amount", vOptQ c.premium_basis_amount),
    ("special_conditions", vOptStr c.special_conditions),
    ("exclusions", .vlist (c.exclusions.map Val.vstr)),
    ("endorsements", .vlist (c.endorsements.map Val.vstr)),
    ("metadata", .vdict c.metadata) ]

/-- Coverage.has_property_coverage. -/
def Coverage.hasPropertyCoverage (c : Coverage) : Bool :=
  tQ c.building_limit || tQ c.contents_limit || tQ c.business_income_limit

/-- Coverage.has_liability_coverage. -/
def Coverage.hasLiabilityCoverage (c : Coverage) : Bool :=
  tQ c.general_aggregate_limit || tQ c.each_occurrence_limit ||
    tQ c.personal_injury_limit

/-- Coverage.is_complete. -/
def Coverage.isComplete (c : Coverage) : Bool :=
  tStr c.policy_type && c.effective_date.isSome && c.expiration_date.isSome &&
    (c.hasPropertyCoverage || c.hasLiabilityCoverage)

/-- Coverage.get_missing_fields. -/
def Coverage.getMissingFields (c : Coverage) : List String :=
  (if !tStr c.policy_type then ["policy_type"] else []) ++
  (if c.effective_date = none then ["effective_date"] else []) ++
  (if c.expiration_date = none then ["expiration_date"] else []) ++
  (if !c.hasPropertyCoverage && !c.hasLiabilityCoverage then
    ["coverage_limits"] else [])

/-! ## Domain model: LossHistory
(src/backend/app/domain/models/loss_history.py) -/

/-- The LossHistory dataclass. Field order and defaults follow the source. -/
structure LossHistory where
  loss_date : Int
  claim_number : Option String := none
  loss_type : Option String := none
  loss_description : Option String := none
  cause_of_loss : Option String := none
  loss_amount : Option ℚ := none
  paid_amount : Option ℚ := none
  reserved_amount : Option ℚ := none
  deductible : Option ℚ := none
  recoveries : Option ℚ := none
  claim_status : String := "Open"
  date_reported : Option Int := none
  date_closed : Option Int := none
  days_to_close : Option Int := none
  location_affected : Option String := none
  location_address : Option String := none
  coverage_type : Option String := none
  coverage_line : Option String := none
  policy_number : Option String := none
  claimant_name : Option String := none
  claimant_type : Option String := none
  injury_type : Option String := none
  injury_description : Option String := none
  medical_only : Option Bool := none
  lost_time : Option Bool := none
  at_fault : Option Bool := none
  subrogation : Option Bool := none
  litigation : Option Bool := none
  fraud_suspected : Option Bool := none
  catastrophe : Option Bool := none
  catastrophe_code : Option String := none
  adjuster_name : Option String := none
  adjuster_company : Option String := none
  notes : Option String := none
  internal_notes : Option String := none
  metadata : List (String × Val) := []

/-- LossHistory.to_dict: asdict with the five Decimal fields converted to
float and the three dates converted to ISO strings. -/
def LossHistory.toDict (l : LossHistory) : List (String × Val) :=
  [ ("loss_date", .vstr (isoDate l.loss_date)),
    ("claim_number", vOptStr l.claim_number),
    ("loss_type", vOptStr l.loss_type),
    ("loss_description", vOptStr l.loss_description),
    ("cause_of_loss", vOptStr l.cause_of_loss),
    ("loss_amount", vOptQ l.loss_amount),
    ("paid_amount", vOptQ l.paid_amount),
    ("reserved_amount", vOptQ l.reserved_amount),
    ("deductible", vOptQ l.deductible),
    ("recoveries", vOptQ l.recoveries),
    ("claim_status", .vstr l.claim_status),
    ("date_reported", vOptDate l.date_reported),
    ("date_closed", vOptDate l.date_closed),
    ("days_to_close", vOptInt l.days_to_close),
    ("location_affected", vOptStr l.location_affected),
    ("location_address", vOptStr l.location_address),
    ("coverage_type", vOptStr l.coverage_type),
    ("coverage_line", vOptStr l.coverage_line),
    ("policy_number", vOptStr l.policy_number),
    ("claimant_name", vOptStr l.claimant_name),
    ("claimant_type", vOptStr l.claimant_type),
    ("injury_type", vOptStr l.injury_type),
    ("injury_description", vOptStr l.injury_description),
    ("medical_only", vOptBool l.medical_only),
    ("lost_time", vOptBool l.lost_time),
    ("at_fault", vOptBool l.at_fault),
    ("subrogation", vOptBool l.subrogation),
    ("litigation", vOptBool l.litigation),
    ("fraud_suspected", vOptBool l.fraud_suspected),
    ("catastrophe", vOptBool l.catastrophe),
    ("catastrophe_code", vOptStr l.catastrophe_code),
    ("adjuster_name", vOptStr l.adjuster_name),
    ("adjuster_company", vOptStr l.adjuster_company),
    ("notes", vOptStr l.notes),
    ("internal_notes", vOptStr l.internal_notes),
    ("metadata", .vdict l.metadata) ]

/-- LossHistory.is_complete (loss_date is a date object, always truthy). -/
def LossHistory.isComplete (l : LossHistory) : Bool :=
  (tStr l.loss_type || tStr l.cause_of_loss) &&
    (tQ l.loss_amount || tQ l.paid_amount) && (l.claim_status ≠ "")

/-- LossHistory.get_missing_fields. -/
def LossHistory.getMissingFields (l : LossHistory) : List String :=
  (if !tStr l.loss_type && !tStr l.cause_of_loss then ["loss_type_or_cause"]
    else []) ++
  (if !tQ l.loss_amount && !tQ l.paid_amount then ["loss_amount_or_paid"]
    else []) ++
  (if l.claim_status = "" then ["claim_status"] else [])

/-! ## Domain model: Submission (src/backend/app/domain/models/submission.py)

Only the parts of the aggregate consumed by the validation service are
embedded; ids, timestamps, file references and workflow status do not
enter any validated computation. -/

/-- The Submission aggregate root (validation-relevant fields). -/
structure Submission where
  id : String := ""
  applicant : Option Applicant := none
  locations : List PropertyLocation := []
  coverage : Option Coverage := none
  loss_history : List LossHistory := []

/-! ## Validation utilities (src/backend/app/utils/validation_utils.py)

is_valid_email and is_valid_phone delegate to external library
collaborators (email_validator, phonenumbers); they are abstracted as
oracle functions carried in the environment below. The ASCII-only digit
class models the source regexes (which the embedded claims only exercise
on ASCII input). -/

/-- is_valid_fein: strip non-digits, require exactly 9 digits and a
first-two-digit pair outside the IRS-invalid set. -/
def isValidFein (fein : String) : Bool :=
  if fein = "" then false
  else
    let clean := fein.toList.filter Char.isDigit
    if clean.length ≠ 9 then false
    else
      !(["00", "07", "08", "09", "17", "18", "19", "78", "79"].contains
        (String.mk (clean.take 2)))

/-- is_valid_zip: 5 digits, or 5 digits, a hyphen and 4 digits. -/
def isValidZip (z : String) : Bool :=
  if z = "" then false
  else
    let cs := z.toList
    (cs.length = 5 && cs.all Char.isDigit) ||
      (cs.length = 10 && (cs.take 5).all Char.isDigit &&
        (cs.drop 5).headD ' ' == '-' && ((cs.drop 5).drop 1).all Char.isDigit)

/-- is_valid_state: exactly two characters whose uppercasing is in the
fixed 50-state + territory set. -/
def isValidState (s : String) : Bool :=
  if s = "" || s.length ≠ 2 then false
  else
    ["AL", "AK", "AZ", "AR", "CA", "CO", "CT", "DE", "FL", "GA",
     "HI", "ID", "IL", "IN", "IA", "KS", "KY", "LA", "ME", "MD",
     "MA", "MI", "MN", "MS", "MO", "MT", "NE", "NV", "NH", "NJ",
     "NM", "NY", "NC", "ND", "OH", "OK", "OR", "PA", "RI", "SC",
     "SD", "TN", "TX", "UT", "VT", "VA", "WA", "WV", "WI", "WY",
     "DC", "PR", "VI", "GU", "AS", "MP"].contains (pyUpper s)

/-- is_valid_naics: 2 to 6 digits after stripping non-digits. -/
def isValidNaics (naics : String) : Bool :=
  if naics = "" then false
  else
    let n := (naics.toList.filter Char.isDigit).length
    2 ≤ n && n ≤ 6

/-- is_valid_year with the source defaults: 1800 ≤ year ≤ current year + 1
(the current year is an environment input). -/
def isValidYear (currentYear : Int) (y : Int) : Bool :=
  1800 ≤ y && y ≤ currentYear + 1

/-- is_valid_currency on a Decimal amount: float(amount) ≥ 0. -/
def isValidCurrency (q : ℚ) : Bool := 0 ≤ q

/-! ## Validation schemas
(src/backend/app/domain/schemas/validation_schema.py) -/

/-- ValidationSeverity. -/
inductive Severity where
  | error
  | warning
  | info
deriving DecidableEq

/-- ValidationCategory. -/
inductive Category where
  | required_field
  | invalid_format
  | invalid_value
  | inconsistent_data
  | business_rule
  | completeness
  | cross_field
  | data_quality
deriving DecidableEq

/-- ValidationIssueSchema (the fields the embedded services populate;
unused optional schema fields keep their defaults and are omitted). -/
structure Issue where
  field_path : String
  severity : Severity
  category : Category
  message : String
  current_value : Option Val := none
  rule_id : Option String := none
  blocking : Bool := false
  related_fields : List String := []

/-- EntityValidationSchema's deterministically computed fields. The
pydantic bound on completeness_percentage (ge=0, le=100) is enforced at
construction; it is modelled in the validate* wrappers below, which
return the exception instead of a record when it fires. -/
structure EntityValidation where
  entity_type : String
  entity_id : Option String := none
  is_valid : Bool
  is_complete : Bool
  completeness_percentage : Int
  missing_fields : List String := []
  errors : List Issue := []
  warnings : List Issue := []

/-- ValidationResultSchema (deterministically computed fields only;
validation_id and the timestamps are boundary-supplied randomness/clock
values with no influence on any other field). -/
structure ValidationResult where
  submission_id : String
  is_valid : Bool
  is_complete : Bool
  completeness_percentage : Int
  can_proceed_to_generation : Bool
  can_submit_to_carrier : Bool
  applicant_validation : Option EntityValidation
  location_validations : List EntityValidation
  coverage_validation : Option EntityValidation
  loss_validations : List EntityValidation
  total_errors : Nat
  total_warnings : Nat
  total_info : Nat
  blocking_errors : Nat
  errors : List Issue
  warnings : List Issue
  info : List Issue
  data_quality_score : Int
  field_completion_rate : Int

/-- Environment of external collaborators consumed by the validation
service: the email and phone validators are third-party libraries, and
the current year comes from the system clock. -/
structure Env where
  emailOk : String → Bool
  phoneOk : String → Bool
  currentYear : Int

/-! ## Validation service
(src/backend/app/core/services/validation_service.py) -/

/-- The exceptions the validation service can raise and validate_submission
re-raises: pydantic ValidationError when a schema bound is violated at
model construction, and ZeroDivisionError from the cross-field TIV
comparison. -/
inductive PyExn where
  | validationError
  | zeroDivisionError

/-- _calculate_entity_completeness on a to_dict output: non-metadata key
count versus values that are neither None nor the empty string (the
metadata dict itself counts as a filled value, as in the source). -/
def entityCompleteness (d : List (String × Val)) : Int :=
  let total := (d.filter (fun kv => kv.1 ≠ "metadata")).length
  let filled := (d.filter (fun kv =>
    match kv.2 with
    | .vnone => false
    | .vstr s => s ≠ ""
    | _ => true)).length
  if total = 0 then 0
  else pytrunc (pyMul (pyDiv (filled : ℚ) (total : ℚ)) 100)

/-- The EntityValidationSchema record validate_applicant builds (its
field values; the pydantic constructor that receives them is the
validateApplicant wrapper below). -/
def applicantEntity (env : Env) (a : Applicant) (strict : Bool) :
    EntityValidation :=
  let errors : List Issue :=
    (if !(a.business_name ≠ "") then
      [{ field_path := "applicant.business_name", severity := .error,
         category := .required_field,
         message := "Business name is required", blocking := true }] else []) ++
    (if tStr a.fein && !isValidFein (a.fein.getD "") then
      [{ field_path := "applicant.fein", severity := .error,
         category := .invalid_format,
         message := "Invalid FEIN format (expected XX-XXXXXXX)",
         current_value := some (vOptStr a.fein) }] else []) ++
    (if tStr a.email && !env.emailOk (a.email.getD "") then
      [{ field_path := "applicant.email", severity := .error,
         category := .invalid_format,
         message := "Invalid email address format",
         current_value := some (vOptStr a.email) }] else []) ++
    (if !a.hasCompleteMailingAddress && !a.hasCompletePhysicalAddress then
      [{ field_path := "applicant.address", severity := .error,
         category := .required_field,
         message := "Complete mailing or physical address is required",
         blocking := true }] else []) ++
    (if tStr a.mailing_state && !isValidState (a.mailing_state.getD "") then
      [{ field_path := "applicant.mailing_state", severity := .error,
         category := .invalid_value, message := "Invalid state code",
         current_value := some (vOptStr a.mailing_state) }] else []) ++
    (if tStr a.mailing_zip && !isValidZip (a.mailing_zip.getD "") then
      [{ field_path := "applicant.mailing_zip", severity := .error,
         category := .invalid_format, message := "Invalid ZIP code format",
         current_value := some (vOptStr a.mailing_zip) }] else [])
  let warnings : List Issue :=
    (if !tStr a.fein && strict then
      [{ field_path := "applicant.fein", severity := .warning,
         category := .required_field,
         message := "FEIN is recommended for commercial insurance" }]
     else []) ++
    (if tStr a.naics_code && !isValidNaics (a.naics_code.getD "") then
      [{ field_path := "applicant.naics_code", severity := .warning,
         category := .invalid_format,
         message := "Invalid NAICS code format",
         current_value := some (vOptStr a.naics_code) }] else []) ++
    (if tStr a.phone && !env.phoneOk (a.phone.getD "") then
      [{ field_path := "applicant.phone", severity := .warning,
         category := .invalid_format,
         message := "Invalid phone number format",
         current_value := some (vOptStr a.phone) }] else [])
  { entity_type := "applicant",
    is_valid := (errors.filter (·.blocking)).length = 0,
    is_complete := a.isComplete,
    completeness_percentage := entityCompleteness a.toDict,
    missing_fields := a.getMissingFields,
    errors := errors, warnings := warnings }

/-- ValidationService.validate_applicant: the record is returned through
the pydantic EntityValidationSchema constructor, whose
completeness_percentage bound (ge=0, le=100) raises ValidationError
outside 0..100 — reachable, since a fully populated applicant scores
int(27/26*100) = 103 (the metadata entry counts as filled but not
toward the total). -/
def validateApplicant (env : Env) (a : Applicant) (strict : Bool) :
    Except PyExn EntityValidation :=
  let ev := applicantEntity env a strict
  if 0 ≤ ev.completeness_percentage ∧ ev.completeness_percentage ≤ 100
  then .ok ev else .error .validationError

/-- The f-string path root for the location at a given index:
locations[index]. -/
def locPath (i : Nat) : String := "locations[" ++ toString i ++ "]"

/-- The EntityValidationSchema record validate_location builds. -/
def locationEntity (env : Env) (l : PropertyLocation) (strict : Bool)
    (index : Nat) : EntityValidation :=
  let p := locPath index
  let errors : List Issue :=
    (if !(l.address_line1 ≠ "") then
      [{ field_path := p ++ ".address_line1", severity := .error,
         category := .required_field,
         message := "Street address is required", blocking := true }] else []) ++
    (if !(l.city ≠ "") then
      [{ field_path := p ++ ".city", severity := .error,
         category := .required_field,
         message := "City is required", blocking := true }] else []) ++
    (if !(l.state ≠ "") then
      [{ field_path := p ++ ".state", severity := .error,
         category := .required_field,
         message := "State is required", blocking := true }]
     else if !isValidState l.state then
      [{ field_path := p ++ ".state", severity := .error,
         category := .invalid_value, message := "Invalid state code",
         current_value := some (.vstr l.state) }] else []) ++
    (if !(l.zip_code ≠ "") then
      [{ field_path := p ++ ".zip_code", severity := .error,
         category := .required_field,
         message := "ZIP code is required", blocking := true }]
     else if !isValidZip l.zip_code then
      [{ field_path := p ++ ".zip_code", severity := .error,
         category := .invalid_format, message := "Invalid ZIP code format",
         current_value := some (.vstr l.zip_code) }] else []) ++
    (if tInt l.year_built && !isValidYear env.currentYear (l.year_built.getD 0)
      then
      [{ field_path := p ++ ".year_built", severity := .error,
         category := .invalid_value, message := "Invalid year built",
         current_value := some (vOptInt l.year_built) }] else []) ++
    (if tQ l.building_value && !isValidCurrency (l.building_value.getD 0) then
      [{ field_path := p ++ ".building_value", severity := .error,
         category := .invalid_value, message := "Invalid building value",
         current_value := some (vOptQ l.building_value) }] else []) ++
    (if tQ l.total_insured_value then
      (if !isValidCurrency (l.total_insured_value.getD 0) then
        [{ field_path := p ++ ".total_insured_value", severity := .error,
           category := .invalid_value,
           message := "Invalid total insured value",
           current_value := some (vOptQ l.total_insured_value) }]
       else if l.total_insured_value.getD 0 ≤ 0 then
        [{ field_path := p ++ ".total_insured_value", severity := .error,
           category := .invalid_value,
           message := "Total insured value must be greater than zero",
           current_value := some (vOptQ l.total_insured_value) }] else [])
     else [])
  let warnings : List Issue :=
    (if !tInt l.year_built && strict then
      [{ field_path := p ++ ".year_built", severity := .warning,
         category := .required_field,
         message := "Year built is recommended" }] else [])
  { entity_type := "location", entity_id := l.location_number,
    is_valid := (errors.filter (·.blocking)).length = 0,
    is_complete := l.isComplete,
    completeness_percentage := entityCompleteness l.toDict,
    missing_fields := l.getMissingFields,
    errors := errors, warnings := warnings }

/-- ValidationService.validate_location: the record above passed through
the pydantic EntityValidationSchema constructor and its
completeness_percentage bound. -/
def validateLocation (env : Env) (l : PropertyLocation) (strict : Bool)
    (index : Nat) : Except PyExn EntityValidation :=
  let ev := locationEntity env l strict index
  if 0 ≤ ev.completeness_percentage ∧ ev.completeness_percentage ≤ 100
  then .ok ev else .error .validationError

/-- The EntityValidationSchema record validate_coverage builds. -/
def coverageEntity (env : Env) (c : Coverage) (strict : Bool) :
    EntityValidation :=
  let errors : List Issue :=
    (if c.effective_date.isSome && c.expiration_date.isSome &&
        c.expiration_date.getD 0 ≤ c.effective_date.getD 0 then
      [{ field_path := "coverage.expiration_date", severity := .error,
         category := .invalid_value,
         message := "Expiration date must be after effective date",
         blocking := true }] else []) ++
    (if tQ c.building_limit && !isValidCurrency (c.building_limit.getD 0) then
      [{ field_path := "coverage.building_limit", severity := .error,
         category := .invalid_value, message := "Invalid building limit",
         current_value := some (vOptQ c.building_limit) }] else [])
  let warnings : List Issue :=
    (if c.effective_date = none then
      [{ field_path := "coverage.effective_date", severity := .warning,
         category := .required_field,
         message := "Effective date is recommended" }] else []) ++
    (if c.expiration_date = none then
      [{ field_path := "coverage.expiration_date", severity := .warning,
         category := .required_field,
         message := "Expiration date is recommended" }] else [])
  { entity_type := "coverage",
    is_valid := (errors.filter (·.blocking)).length = 0,
    is_complete := c.isComplete,
    completeness_percentage := entityCompleteness c.toDict,
    missing_fields := c.getMissingFields,
    errors := errors, warnings := warnings }

/-- ValidationService.validate_coverage: the record above passed through
the pydantic EntityValidationSchema constructor and its
completeness_percentage bound (a fully populated coverage scores 101,
so the ValidationError path is reachable here too). -/
def validateCoverage (env : Env) (c : Coverage) (strict : Bool) :
    Except PyExn EntityValidation :=
  let ev := coverageEntity env c strict
  if 0 ≤ ev.completeness_percentage ∧ ev.completeness_percentage ≤ 100
  then .ok ev else .error .validationError

/-- The f-string path root for the loss at a given index:
loss_history[index]. -/
def lossPath (i : Nat) : String := "loss_history[" ++ toString i ++ "]"

/-- ValidationService.validate_loss (the loss_date field of the model is
a date object, hence always truthy, so the missing-loss-date branch of
the source cannot fire on a constructed LossHistory). -/
def lossEntity (env : Env) (l : LossHistory) (strict : Bool)
    (index : Nat) : EntityValidation :=
  let p := lossPath index
  let errors : List Issue := []
  let warnings : List Issue :=
    (if !tQ l.loss_amount && !tQ l.paid_amount then
      [{ field_path := p ++ ".loss_amount", severity := .warning,
         category := .required_field,
         message := "Loss amount or paid amount should be provided" }] else [])
  { entity_type := "loss",
    is_valid := (errors.filter (·.blocking)).length = 0,
    is_complete := l.isComplete,
    completeness_percentage := entityCompleteness l.toDict,
    missing_fields := l.getMissingFields,
    errors := errors, warnings := warnings }

/-- ValidationService.validate_loss: the record above passed through the
pydantic EntityValidationSchema constructor and its
completeness_percentage bound. -/
def validateLoss (env : Env) (l : LossHistory) (strict : Bool)
    (index : Nat) : Except PyExn EntityValidation :=
  let ev := lossEntity env l strict index
  if 0 ≤ ev.completeness_percentage ∧ ev.completeness_percentage ≤ 100
  then .ok ev else .error .validationError

/-- Python float addition (IEEE binary64). -/
def pyAdd (a b : ℚ) : ℚ := pyRound64 (a + b)

/-- Python float subtraction (IEEE binary64). -/
def pySub (a b : ℚ) : ℚ := pyRound64 (a - b)

/-- ValidationService._validate_cross_fields. The interpolated numeric
amounts in the warning message are elided from the message text (no
claim inspects this message). The float division raises
ZeroDivisionError exactly when max(location_tiv, building_limit) is the
float zero — reachable: locations whose TIVs are all zero together with
a negative (truthy) building limit. -/
def crossFields (sub : Submission) : Except PyExn (List Issue) :=
  if !sub.locations.isEmpty && sub.coverage.isSome then
    let c := sub.coverage.getD {}
    let locTiv : ℚ := (sub.locations.map (fun l =>
      pyRound64 (if tQ l.total_insured_value then
        l.total_insured_value.getD 0 else 0))).foldl pyAdd 0
    if tQ c.building_limit then
      let bl := pyRound64 (c.building_limit.getD 0)
      if max locTiv bl = 0 then .error .zeroDivisionError
      else if lit01 < pyDiv |pySub locTiv bl| (max locTiv bl) then
        .ok
          [{ field_path := "coverage.building_limit", severity := .warning,
             category := .inconsistent_data,
             message :=
               "Coverage limit differs significantly from location TIV",
             related_fields := ["locations.total_insured_value"] }]
      else .ok []
    else .ok []
  else .ok []

/-- ValidationService._validate_business_rules. -/
def businessRules (sub : Submission) (strict : Bool) : List Issue :=
  (if sub.locations.length = 0 then
    [{ field_path := "locations", severity := .error,
       category := .business_rule,
       message := "At least one property location is required",
       blocking := true, rule_id := some "BR001" }] else []) ++
  (sub.locations.enum.flatMap (fun il =>
    if tQ il.2.total_insured_value &&
        (10000000 : ℚ) < pyRound64 (il.2.total_insured_value.getD 0) &&
        (!(il.2.sprinkler_system.getD false) || !tStr il.2.protection_class)
      then
      [{ field_path := locPath il.1, severity := .warning,
         category := .business_rule,
         message :=
           "High-value properties should include sprinkler and protection class information",
         rule_id := some "BR002" }]
    else []))

/-- ValidationService._calculate_completeness. max_score is always
30 + 30 + 25 + 15 = 100. Each weighted contribution is truncated to an
int before being added, as in the source. -/
def calcCompleteness (sub : Submission) : Int :=
  let tApplicant : Int := match sub.applicant with
    | some a => pytrunc (pyMul (entityCompleteness a.toDict : ℚ) lit03)
    | none => 0
  let tLocations : Int :=
    if sub.locations.isEmpty then 0
    else
      let scores := sub.locations.map (fun l => entityCompleteness l.toDict)
      let avg : ℚ := pyDiv ((scores.foldl (· + ·) 0 : Int) : ℚ)
        (scores.length : ℚ)
      pytrunc (pyMul avg lit03)
  let tCoverage : Int := match sub.coverage with
    | some c => pytrunc (pyMul (entityCompleteness c.toDict : ℚ) lit025)
    | none => 0
  let tLoss : Int := if !sub.loss_history.isEmpty then 15 else 10
  let total : Int := tApplicant + tLocations + tCoverage + tLoss
  min 100 (pytrunc (pyMul (pyDiv (total : ℚ) 100) 100))

/-- ValidationService._calculate_quality_score (all quantities are
integers here, so round(·, 2) is the identity). -/
def qualityScore (errors warnings : List Issue) (completeness : Int) : Int :=
  max 0 (completeness - 5 * (errors.length : Int) - 2 * (warnings.length : Int))

/-- The ValidationResultSchema record validate_submission constructs
from the entity validations, cross-field issues and the pure metric
passes (field values only; the pydantic constructor that receives them
is part of validateSubmission below). -/
def mkValidationResult (env : Env) (sub : Submission) (strict : Bool)
    (applicantVal : Option EntityValidation)
    (locationVals : List EntityValidation)
    (coverageVal : Option EntityValidation)
    (lossVals : List EntityValidation)
    (cross : List Issue) : ValidationResult :=
  let applicantErrs : List Issue := match applicantVal with
    | some ev => ev.errors
    | none =>
      [{ field_path := "applicant", severity := .error,
         category := .required_field,
         message := "Applicant information is required", blocking := true }]
  let applicantWarns : List Issue := match applicantVal with
    | some ev => ev.warnings
    | none => []
  let locationErrs : List Issue :=
    if sub.locations.isEmpty then
      [{ field_path := "locations", severity := .error,
         category := .required_field,
         message := "At least one property location is required",
         blocking := true }]
    else locationVals.flatMap (·.errors)
  let locationWarns : List Issue :=
    if sub.locations.isEmpty then [] else locationVals.flatMap (·.warnings)
  let coverageErrs : List Issue := match coverageVal with
    | some ev => ev.errors
    | none => []
  let coverageWarns : List Issue := match coverageVal with
    | some ev => ev.warnings
    | none =>
      [{ field_path := "coverage", severity := .warning,
         category := .required_field,
         message := "Coverage information is recommended" }]
  let lossErrs : List Issue := lossVals.flatMap (·.errors)
  let lossWarns : List Issue := lossVals.flatMap (·.warnings)
  let br := businessRules sub strict
  let errors := applicantErrs ++ locationErrs ++ coverageErrs ++ lossErrs ++
    cross.filter (·.severity = .error) ++ br.filter (·.severity = .error)
  let warnings := applicantWarns ++ locationWarns ++ coverageWarns ++
    lossWarns ++ cross.filter (·.severity = .warning) ++
    br.filter (·.severity = .warning)
  let info := cross.filter (·.severity = .info)
  let isValid := (errors.filter (·.blocking)).length = 0
  let completeness := calcCompleteness sub
  let blockingErrors := (errors.filter (·.blocking)).length
  { submission_id := sub.id,
    is_valid := isValid,
    is_complete := 80 ≤ completeness,
    completeness_percentage := completeness,
    can_proceed_to_generation := isValid && 80 ≤ completeness,
    can_submit_to_carrier := isValid && 95 ≤ completeness,
    applicant_validation := applicantVal,
    location_validations := locationVals,
    coverage_validation := coverageVal,
    loss_validations := lossVals,
    total_errors := errors.length,
    total_warnings := warnings.length,
    total_info := info.length,
    blocking_errors := blockingErrors,
    errors := errors, warnings := warnings, info := info,
    data_quality_score := qualityScore errors warnings completeness,
    field_completion_rate := completeness }

/-- The applicant phase of validate_submission: validate the applicant
when present (its exception propagating), none otherwise. -/
def applicantStep (env : Env) (strict : Bool) :
    Option Applicant → Except PyExn (Option EntityValidation)
  | some a => Except.map some (validateApplicant env a strict)
  | none => .ok none

/-- The coverage phase of validate_submission, likewise. -/
def coverageStep (env : Env) (strict : Bool) :
    Option Coverage → Except PyExn (Option EntityValidation)
  | some c => Except.map some (validateCoverage env c strict)
  | none => .ok none

/-- A for-loop that collects results and propagates the first raised
exception, as the location and loss loops of validate_submission do. -/
def exceptMapList {α β : Type _} (f : α → Except PyExn β) :
    List α → Except PyExn (List β)
  | [] => .ok []
  | x :: t =>
    match f x with
    | .error e => .error e
    | .ok y =>
      match exceptMapList f t with
      | .error e => .error e
      | .ok rest => .ok (y :: rest)

/-- ValidationService.validate_submission: the entity phases, the
cross-field pass and the final ValidationResultSchema construction (its
outer try/except logs and re-raises, so every exception propagates
to the caller). The final construction checks the pydantic bounds on
completeness_percentage and data_quality_score, the only bounded
fields a reachable value could violate. -/
def validateSubmission (env : Env) (sub : Submission) (strict : Bool) :
    Except PyExn ValidationResult :=
  match applicantStep env strict sub.applicant with
  | .error e => .error e
  | .ok applicantVal =>
    match exceptMapList (fun il => validateLocation env il.2 strict il.1)
        sub.locations.enum with
    | .error e => .error e
    | .ok locationVals =>
      match coverageStep env strict sub.coverage with
      | .error e => .error e
      | .ok coverageVal =>
        match exceptMapList (fun il => validateLoss env il.2 strict il.1)
            sub.loss_history.enum with
        | .error e => .error e
        | .ok lossVals =>
          match crossFields sub with
          | .error e => .error e
          | .ok cross =>
            let r := mkValidationResult env sub strict applicantVal
              locationVals coverageVal lossVals cross
            if 0 ≤ r.completeness_percentage ∧
                r.completeness_percentage ≤ 100 ∧
                0 ≤ r.data_quality_score ∧ r.data_quality_score ≤ 100
            then .ok r else .error .validationError

/-- The result record validate_submission returns when no exception
fires: every entity validation has delivered its record and the
cross-field pass delivered the given issue list. -/
def submissionResult (env : Env) (sub : Submission) (strict : Bool)
    (cross : List Issue) : ValidationResult :=
  mkValidationResult env sub strict
    (sub.applicant.map (fun a => applicantEntity env a strict))
    (sub.locations.enum.map (fun il => locationEntity env il.2 strict il.1))
    (sub.coverage.map (fun c => coverageEntity env c strict))
    (sub.loss_history.enum.map (fun il => lossEntity env il.2 strict il.1))
    cross

/-! ## Extraction merge
(src/backend/app/core/services/extraction_service.py)

A per-document extracted candidate is a dictionary carrying a
'confidence' entry (read with .get('confidence', 0.0), so a missing
entry is 0.0 — the default is folded into the conf field) plus the
extracted payload fields. A falsy (empty) candidate dictionary, which
every truthiness test in the source skips, is modelled as none. -/

/-- One extracted candidate dictionary: its confidence plus the rest of
its fields. -/
structure Candidate where
  conf : ℚ
  fields : List (String × Val) := []

/-- The extracted_data dictionary of one document. -/
structure Extracted where
  applicant : Option Candidate := none
  locations : List Candidate := []
  coverage : Option Candidate := none
  loss_history : List Candidate := []

/-- One per-document extraction result (status plus extracted data). -/
structure FileResult where
  status : String
  extracted : Extracted := {}

/-- The singleton-merge step of _merge_extraction_results: keep the
existing candidate unless the new one has strictly greater confidence. -/
def pickHigher (acc : Option Candidate) (c : Candidate) : Option Candidate :=
  match acc with
  | none => some c
  | some e => if e.conf < c.conf then some c else some e

/-- One iteration of the merge loop of _merge_extraction_results. -/
def mergeStep (m : Extracted) (r : FileResult) : Extracted :=
  if r.status ≠ "completed" then m
  else
    let m := match r.extracted.applicant with
      | none => m
      | some c => { m with applicant := pickHigher m.applicant c }
    let m := if r.extracted.locations.isEmpty then m
      else { m with locations := m.locations ++ r.extracted.locations }
    let m := match r.extracted.coverage with
      | none => m
      | some c => { m with coverage := pickHigher m.coverage c }
    if r.extracted.loss_history.isEmpty then m
    else { m with loss_history := m.loss_history ++ r.extracted.loss_history }

/-- ExtractionService._merge_extraction_results. -/
def mergeExtractionResults (rs : List FileResult) : Extracted :=
  rs.foldl mergeStep {}

/-- The applicant candidates the merge considers: the truthy applicant
dictionaries of the documents whose status is completed. -/
def applicantCandidates (rs : List FileResult) : List Candidate :=
  (rs.filter (fun r => r.status = "completed")).filterMap (·.extracted.applicant)

/-- The coverage candidates the merge considers. -/
def coverageCandidates (rs : List FileResult) : List Candidate :=
  (rs.filter (fun r => r.status = "completed")).filterMap (·.extracted.coverage)

/-- Spec-side description of the singleton merge (written from the
spec's words for comparison with the source merge): the candidate with
the numerically highest confidence, the first-seen one on ties. -/
def specFirstMax : List Candidate → Option Candidate
  | [] => none
  | c :: t =>
    match specFirstMax t with
    | none => some c
    | some m => if c.conf < m.conf then some m else some c

/-- The location candidates contributed to the merge, in document order. -/
def locationCandidates (rs : List FileResult) : List Candidate :=
  (rs.filter (fun r => r.status = "completed")).flatMap (·.extracted.locations)

/-- The loss candidates contributed to the merge, in document order. -/
def lossCandidates (rs : List FileResult) : List Candidate :=
  (rs.filter (fun r => r.status = "completed")).flatMap (·.extracted.loss_history)

/-! ## PDF field resolution and value formatting
(src/backend/app/infrastructure/pdf/fillpdf_utils.py)

fillpdf_utils imports get_mapping, resolve_field_name, on_value,
format_hint and the Mapping type from acord_field_mappings, but the
repository source under src/ does not define them (acord_field_mappings
only defines the literal field-name tables); those helpers are modelled
from the spec below, each marked as such. datetime.fromisoformat and
datetime.strftime are Python library collaborators, abstracted as the
oracle functions pIso / sfm threaded through the formatting functions.
float(str) is modelled by parseFloat for the plain decimal grammar
(underscored literals and inf/nan are outside the model). -/

/-- Numeric value of a list of ASCII digits. -/
def digitsVal (cs : List Char) : Nat :=
  cs.foldl (fun a c => a * 10 + (c.toNat - 48)) 0

/-- Multiply a rational by 10^k for an integer k. -/
def mulPow10 (q : ℚ) (k : Int) : ℚ :=
  if 0 ≤ k then q * (10 : ℚ) ^ k.toNat else q / (10 : ℚ) ^ (-k).toNat

/-- Parse the optional exponent suffix of a float literal. -/
def parseExp : List Char → Option Int
  | [] => some 0
  | e :: t =>
    if e = 'e' || e = 'E' then
      let (sgn, t2) : Int × List Char := match t with
        | '+' :: r => (1, r)
        | '-' :: r => (-1, r)
        | r => (1, r)
      let ds := t2.takeWhile Char.isDigit
      if ds.isEmpty || !(t2.dropWhile Char.isDigit).isEmpty then none
      else some (sgn * (digitsVal ds : Int))
    else none

/-- Model of Python float(str) on the plain decimal grammar: optional
sign, digits with an optional fractional part (or a bare fractional
part), optional exponent; the exact decimal value is then correctly
rounded to binary64. -/
def parseFloat (s : String) : Option ℚ :=
  let cs := (pyStrip s).toList
  let (sgn, cs) : ℚ × List Char := match cs with
    | '+' :: t => (1, t)
    | '-' :: t => (-1, t)
    | t => (1, t)
  let ip := cs.takeWhile Char.isDigit
  let rest := cs.dropWhile Char.isDigit
  match rest with
  | [] =>
    if ip.isEmpty then none
    else some (pyRound64 (sgn * (digitsVal ip : ℚ)))
  | '.' :: rest2 =>
    let fp := rest2.takeWhile Char.isDigit
    let rest3 := rest2.dropWhile Char.isDigit
    if ip.isEmpty && fp.isEmpty then none
    else
      match parseExp rest3 with
      | none => none
      | some ex =>
        let mant : ℚ := (digitsVal ip : ℚ) +
          mulPow10 (digitsVal fp : ℚ) (-(fp.length : Int))
        some (pyRound64 (sgn * mulPow10 mant ex))
  | rest =>
    if ip.isEmpty then none
    else
      match parseExp rest with
      | none => none
      | some ex => some (pyRound64 (sgn * mulPow10 (digitsVal ip : ℚ) ex))

/-- Model of Python float(value): TypeError cases (None, datetime,
list, dict) become none. -/
def toFloat : Val → Option ℚ
  | .vnum q => some q
  | .vint n => some (pyRound64 (n : ℚ))
  | .vbool b => some (if b then 1 else 0)
  | .vstr s => parseFloat s
  | _ => none

/-- Insert thousands separators into a reversed digit list. -/
def group3Chars : List Char → List Char
  | a :: b :: c :: d :: t => a :: b :: c :: ',' :: group3Chars (d :: t)
  | l => l

/-- Decimal rendering of a natural number with thousands separators. -/
def commaGroup (n : Nat) : String :=
  String.mk ((group3Chars (toString n).toList.reverse).reverse)

/-- Left-pad a natural number with zeros to the given width. -/
def padZeros (width : Nat) (k : Nat) : String :=
  let s := toString k
  String.mk (List.replicate (width - s.length) '0') ++ s

/-- Model of the Python fixed-point format f-string with the given
number of decimals and optional thousands separators (round half to
even on the exact binary64 value, as CPython does). -/
def fmtFixed (q : ℚ) (decimals : Nat) (useComma : Bool) : String :=
  let n := rndTiesEven (mulPow10 q (decimals : Int))
  let mag := n.natAbs
  let ipart := mag / 10 ^ decimals
  let fpart := mag % 10 ^ decimals
  (if q < 0 then "-" else "") ++
    (if useComma then commaGroup ipart else toString ipart) ++
    (if decimals = 0 then "" else "." ++ padZeros decimals fpart)

/-- fillpdf_utils.format_money: strings are first stripped of currency
punctuation (note: the bare-except fallback then stringifies the
stripped value, not the original). -/
def formatMoney (v : Val) (spec : String) : String :=
  let v : Val := match v with
    | .vstr s => .vstr (pyStrip (pyReplace (pyReplace s "$" "") "," ""))
    | w => w
  match toFloat v with
  | none => v.pyStr
  | some q =>
    if pyContainsChar spec '$' then "$" ++ fmtFixed q 2 true
    else fmtFixed q 2 true

/-- fillpdf_utils.format_number: strings are first stripped of commas;
a spec whose '.' yields a negative decimal count makes the f-string
raise, landing in the bare-except fallback. -/
def formatNumber (v : Val) (spec : String) : String :=
  let v : Val := match v with
    | .vstr s => .vstr (pyStrip (pyReplace s "," ""))
    | w => w
  match toFloat v with
  | none => v.pyStr
  | some q =>
    if pyContainsChar spec '.' then
      let dp : Int := (spec.toList.count '#' : Int) -
        (spec.toList.indexOf '.' : Int) - 1
      if dp < 0 then v.pyStr
      else fmtFixed q dp.toNat (pyContainsChar spec ',')
    else fmtFixed q 0 (pyContainsChar spec ',')

/-- fillpdf_utils.format_date. pIso models datetime.fromisoformat (on
the Z-substituted string), sfm models datetime.strftime (total, so the
try/except around it never fires). A string that fails to parse is
returned unchanged; any non-datetime value falls back to str(value). -/
def formatDate (pIso : String → Option Int) (sfm : Int → String → String)
    (v : Val) (spec : String) : String :=
  let conv := pyReplace (pyReplace (pyReplace (pyReplace spec
    "mm" "%m") "dd" "%d") "yyyy" "%Y") "yy" "%y"
  match v with
  | .vstr s =>
    match pIso (pyReplace s "Z" "+00:00") with
    | none => s
    | some dt => sfm dt conv
  | .vdatetime d => sfm d conv
  | w => w.pyStr

/-- fillpdf_utils.format_value. -/
def formatValue (pIso : String → Option Int) (sfm : Int → String → String)
    (v : Val) (hint : Option String) : String :=
  match v with
  | .vnone => ""
  | _ =>
    match hint with
    | none => v.pyStr
    | some h =>
      let parts := pySplitFirst h ":"
      let ftype := parts.1
      let fspec := (parts.2).getD ""
      if ftype = "date" then formatDate pIso sfm v fspec
      else if ftype = "money" then formatMoney v fspec
      else if ftype = "number" then formatNumber v fspec
      else v.pyStr

/-- Modelled from the spec: the Mapping configuration object that
get_mapping returns (missing from acord_field_mappings under src/): the
canonical-key → physical-field-template table, the checkbox on-token
registry, the per-key format hints, and the fixed physical slot count
for repeating groups. -/
structure Mapping where
  field_map : List (String × String)
  checkbox_on : List (String × String) := []
  format_hints : List (String × String) := []
  max_rows : Nat := 0

/-- fillpdf_utils.get_nested_value along an already-split dotted path:
a missing key, an explicit None, or a non-dict midway short-circuit to
none. -/
def getNestedSteps : Val → List String → Option Val
  | v, [] => some v
  | .vdict kvs, k :: ks =>
    match kvs.lookup k with
    | none => none
    | some .vnone => none
    | some v => getNestedSteps v ks
  | _, _ :: _ => none

/-- fillpdf_utils.get_nested_value. -/
def getNestedValue (data : Val) (key : String) : Option Val :=
  getNestedSteps data (pySplit key ".")

/-- Modelled from the spec: resolve_field_name for a simple canonical
key (missing from acord_field_mappings under src/) — the physical field
name the form's table maps the key to. -/
def resolveFieldName (m : Mapping) (key : String) : Option String :=
  m.field_map.lookup key

/-- Modelled from the spec: resolve_field_name for a repeating-group
key with a row index — the physical name is the template parameterized
by the 1-based row number, and rows beyond the form's fixed slot count
resolve to nothing (silently dropped). -/
def resolveFieldNameRow (m : Mapping) (key : String) (row : Nat) :
    Option String :=
  if row < m.max_rows then
    (m.field_map.lookup key).map (fun t => t ++ toString (row + 1))
  else none

/-- Modelled from the spec: on_value — the configured checkbox on-token
for the key (commonly a Yes literal). -/
def onValue (m : Mapping) (key : String) : String :=
  (m.checkbox_on.lookup key).getD "Yes"

/-- Modelled from the spec: format_hint — the configured format hint
for the key, if any. -/
def formatHint (m : Mapping) (key : String) : Option String :=
  m.format_hints.lookup key

/-- Python dict assignment on the association-list model: overwrite in
place or append. -/
def dictSet (acc : List (String × String)) (k v : String) :
    List (String × String) :=
  if (acc.lookup k).isSome then
    acc.map (fun p => if p.1 = k then (k, v) else p)
  else acc ++ [(k, v)]

/-- The canonical key contains the repeating-group marker. -/
def hasRepeatMarker (k : String) : Bool := (pySplit k "[]").length ≠ 1

/-- fillpdf_utils._process_simple_field. -/
def processSimpleField (pIso : String → Option Int)
    (sfm : Int → String → String) (m : Mapping) (data : Val) (key : String)
    (acc : List (String × String)) : List (String × String) :=
  match getNestedValue data key with
  | none => acc
  | some v =>
    match resolveFieldName m key with
    | none => acc
    | some f =>
      if (m.checkbox_on.lookup key).isSome then
        dictSet acc f (if v.truthy then onValue m key else "")
      else dictSet acc f (formatValue pIso sfm v (formatHint m key))

/-- fillpdf_utils._process_repeating_field. -/
def processRepeatingField (pIso : String → Option Int)
    (sfm : Int → String → String) (m : Mapping) (data : Val) (key : String)
    (acc : List (String × String)) : List (String × String) :=
  match pySplit key "[]." with
  | [groupKey, fieldKey] =>
    match getNestedValue data groupKey with
    | some (.vlist rows) =>
      rows.enum.foldl (fun acc ir =>
        match ir.2 with
        | .vdict kvs =>
          match kvs.lookup fieldKey with
          | none => acc
          | some .vnone => acc
          | some v =>
            match resolveFieldNameRow m key ir.1 with
            | none => acc
            | some f => dictSet acc f (formatValue pIso sfm v (formatHint m key))
        | _ => acc) acc
    | _ => acc
  | _ => acc

/-- fillpdf_utils.build_pdf_data: iterate the form's canonical keys in
table order, dispatching repeating-group keys. -/
def buildPdfData (pIso : String → Option Int) (sfm : Int → String → String)
    (data : Val) (m : Mapping) : List (String × String) :=
  m.field_map.foldl (fun acc kt =>
    if hasRepeatMarker kt.1 then
      processRepeatingField pIso sfm m data kt.1 acc
    else processSimpleField pIso sfm m data kt.1 acc) []

/-! ## Spec-side definitions (transcribed from the claims' words, for
comparison against the source embeddings) -/

/-- Spec-side FEIN pattern from the claim: two digits, a hyphen, seven
digits. -/
def specFeinPattern (f : String) : Bool :=
  match f.toList with
  | a :: b :: h :: rest =>
    a.isDigit && b.isDigit && h = '-' && rest.length = 7 &&
      rest.all Char.isDigit
  | _ => false

/-- Amended FEIN rule (what the source actually checks): exactly nine
digits remain after discarding every non-digit character, and the first
two of them are not an IRS-invalid pair (00, 07, 08, 09, 17, 18, 19,
78, 79). -/
def specFeinAmended (f : String) : Bool :=
  let ds := f.toList.filter Char.isDigit
  (f ≠ "") && (ds.length = 9) &&
    match ds with
    | a :: b :: _ =>
      !((a = '0' && (b = '0' || b = '7' || b = '8' || b = '9')) ||
        (a = '1' && (b = '7' || b = '8' || b = '9')) ||
        (a = '7' && (b = '8' || b = '9')))
    | _ => false

/-- The claim's completeness formula for C6: the floor of the exact
weighted sum 0.30·applicant + 0.30·mean(locations) + 0.25·coverage +
(15 if losses present else 10), absent entities contributing 0. -/
def specC6Floor (sub : Submission) : Int :=
  let a : ℚ := match sub.applicant with
    | some a => (entityCompleteness a.toDict : ℚ)
    | none => 0
  let l : ℚ :=
    if sub.locations.isEmpty then 0
    else
      let scores := sub.locations.map (fun l => entityCompleteness l.toDict)
      ((scores.foldl (· + ·) 0 : Int) : ℚ) / (scores.length : ℚ)
  let c : ℚ := match sub.coverage with
    | some c => (entityCompleteness c.toDict : ℚ)
    | none => 0
  let k : ℚ := if !sub.loss_history.isEmpty then 15 else 10
  (3 / 10 * a + 3 / 10 * l + 1 / 4 * c + k).floor

/-- Amended completeness formula for C6 (what the source computes): each
weighted term is truncated to an integer on its own, in binary64
arithmetic, the four truncated terms are summed, and the sum is passed
through the final binary64 rescaling total/100*100 before truncation
and capping at 100. -/
def specC6Amended (sub : Submission) : Int :=
  let tA : Int := match sub.applicant with
    | some a => pytrunc (pyMul (entityCompleteness a.toDict : ℚ) lit03)
    | none => 0
  let tL : Int :=
    if sub.locations.isEmpty then 0
    else
      let scores := sub.locations.map (fun l => entityCompleteness l.toDict)
      pytrunc (pyMul (pyDiv ((scores.foldl (· + ·) 0 : Int) : ℚ)
        (scores.length : ℚ)) lit03)
  let tC : Int := match sub.coverage with
    | some c => pytrunc (pyMul (entityCompleteness c.toDict : ℚ) lit025)
    | none => 0
  let tLoss : Int := if !sub.loss_history.isEmpty then 15 else 10
  min 100 (pytrunc (pyMul (pyDiv ((tA + tL + tC + tLoss : Int) : ℚ) 100) 100))

/-- Hint-specific cleanup of a value before formatting, as the amended
C9 fallback describes it: money strips currency symbols and commas and
trims; number strips commas and trims; other hints leave the value
unchanged. -/
def specCleanFor (v : Val) (hint : Option String) : Val :=
  match hint with
  | none => v
  | some h =>
    let ftype := (pySplitFirst h ":").1
    if ftype = "money" then
      match v with
      | .vstr s => .vstr (pyStrip (pyReplace (pyReplace s "$" "") "," ""))
      | w => w
    else if ftype = "number" then
      match v with
      | .vstr s => .vstr (pyStrip (pyReplace s "," ""))
      | w => w
    else v

/-- The amended C9 fallback: an unformattable value degrades to the
plain string representation of its hint-cleaned form (and a None value
to the empty string). -/
def specFallback (v : Val) (hint : Option String) : String :=
  match v with
  | .vnone => ""
  | _ => (specCleanFor v hint).pyStr

/-- The value cannot be formatted per its hint (the condition under
which the source's bare-except fallbacks engage, or no formatter
applies at all): money/number parse failures, a number spec with a
negative decimal count, an unparsable date string or non-date value
under a date hint, and hints that select no formatter. -/
def cannotFormat (pIso : String → Option Int) (v : Val)
    (hint : Option String) : Bool :=
  match v with
  | .vnone => true
  | _ =>
    match hint with
    | none => true
    | some h =>
      let parts := pySplitFirst h ":"
      let ftype := parts.1
      let fspec := (parts.2).getD ""
      if ftype = "date" then
        match v with
        | .vstr s => (pIso (pyReplace s "Z" "+00:00")).isNone
        | .vdatetime _ => false
        | _ => true
      else if ftype = "money" then
        (toFloat (specCleanFor v hint)).isNone
      else if ftype = "number" then
        (toFloat (specCleanFor v hint)).isNone ||
          (pyContainsChar fspec '.' &&
            (fspec.toList.count '#' : Int) - (fspec.toList.indexOf '.' : Int) - 1 < 0)
      else true

/-! ## Concrete fixtures used by witnesses and counterexamples -/

/-- A trivial collaborator environment (accepting email/phone oracles,
clock year 2026). -/
def envTriv : Env :=
  { emailOk := fun _ => true, phoneOk := fun _ => true, currentYear := 2026 }

/-- Date-parse oracle instance used where dates are irrelevant. -/
def pIso0 : String → Option Int := fun _ => none

/-- strftime oracle instance used where dates are irrelevant. -/
def sfm0 : Int → String → String := fun _ _ => ""

/-- The C6 counterexample submission: an applicant carrying only a
business name, an otherwise-empty coverage, no locations, no losses. -/
def subC6 : Submission :=
  { applicant := some { business_name := "Acme Corp" },
    coverage := some {} }

/-- The blocking expiration-date issue emitted by validate_coverage. -/
def expirationIssue : Issue :=
  { field_path := "coverage.expiration_date", severity := .error,
    category := .invalid_value,
    message := "Expiration date must be after effective date",
    blocking := true }

/-- The required-field missing-locations issue of validate_submission. -/
def missingLocationsIssue : Issue :=
  { field_path := "locations", severity := .error,
    category := .required_field,
    message := "At least one property location is required",
    blocking := true }

/-- The BR001 business-rule issue of _validate_business_rules. -/
def br001Issue : Issue :=
  { field_path := "locations", severity := .error,
    category := .business_rule,
    message := "At least one property location is required",
    blocking := true, rule_id := some "BR001" }

/-- C3 counterexample, first document: one location candidate. -/
def frA : FileResult :=
  { status := "completed", extracted := { locations := [{ conf := 1 / 2 }] } }

/-- C3 counterexample, second document: a different location candidate. -/
def frB : FileResult :=
  { status := "completed", extracted := { locations := [{ conf := 9 / 10 }] } }

/-- C7 checkbox mapping fixture: one canonical key registered as a
checkbox with on-token Yes. -/
def mapC7 : Mapping :=
  { field_map := [("flags.sprinkler", "SprinklerCB")],
    checkbox_on := [("flags.sprinkler", "Yes")] }

/-- C7 data with the checkbox key absent. -/
def dataC7Absent : Val := .vdict [("flags", .vdict [])]

/-- C7 data with a truthy checkbox value. -/
def dataC7True : Val := .vdict [("flags", .vdict [("sprinkler", .vbool true)])]

/-- C7 data with a falsy (but present, non-None) checkbox value. -/
def dataC7False : Val := .vdict [("flags", .vdict [("sprinkler", .vbool false)])]

/-- The C1 filter: blocking issues whose field path is
coverage.expiration_date. -/
def pExp (i : Issue) : Bool :=
  i.blocking && (i.field_path == "coverage.expiration_date")

/-- C1 witness submission: a coverage whose expiration equals its
effective date. -/
def subC1 : Submission :=
  { coverage := some { effective_date := some 20260101,
                       expiration_date := some 20260101 } }

/-- A fully populated applicant: every to_dict value is present and
non-empty, so its entity completeness is int(27/26*100) = 103 and the
pydantic bound of EntityValidationSchema raises ValidationError. -/
def applFull : Applicant :=
  { business_name := "Acme Corp", fein := some "12-3456789",
    dba_name := some "Acme", naics_code := some "541330",
    naics_description := some "Engineering services",
    business_type := some "LLC", years_in_business := some 12,
    description := some "Consulting firm", contact_name := some "Lee Smith",
    contact_title := some "CEO", email := some "lee@acme.example",
    phone := some "5125550100", fax := some "5125550101",
    website := some "acme.example",
    mailing_address_line1 := some "1 Main St",
    mailing_address_line2 := some "Suite 200",
    mailing_city := some "Austin", mailing_state := some "TX",
    mailing_zip := some "78701",
    physical_address_line1 := some "1 Main St",
    physical_address_line2 := some "Suite 200",
    physical_city := some "Austin", physical_state := some "TX",
    physical_zip := some "78701" }

/-- C1 counterexample submission: the coverage satisfies the claim's
premise (both dates set, expiration equal to effective), but the fully
populated applicant makes validate_applicant raise before any coverage
error is recorded. -/
def subC1x : Submission :=
  { applicant := some applFull,
    coverage := some { effective_date := some 20260101,
                       expiration_date := some 20260101 } }

/-- A location as the dataclass constructs it with no values: post-init
sets total_insured_value to the zero sum. -/
def locZero : PropertyLocation := PropertyLocation.postInit {}

/-- C5 counterexample submission: one all-zero-TIV location and a
negative (truthy) building limit drive the cross-field division's
denominator max(0.0, -1.0) to zero, so validate_submission raises
ZeroDivisionError and returns no result. -/
def subC5x : Submission :=
  { locations := [locZero],
    coverage := some { building_limit := some (-1) } }

/-- C10 counterexample submission: no locations, but the fully populated
applicant makes validate_applicant raise before the two missing-location
errors are assembled. -/
def subC10x : Submission := { applicant := some applFull }

/-- The result record of validating subC1 (its cross-field pass returns
no issues: there are no locations). -/
def rC1 : ValidationResult := submissionResult envTriv subC1 false []

/-- The result record of validating subC6. -/
def rC6 : ValidationResult := submissionResult envTriv subC6 false []

/-- The result record of validating the empty submission. -/
def rC10 : ValidationResult := submissionResult envTriv {} false []

/-- C8 counterexample applicant: a nine-digit FEIN with no hyphen. -/
def applC8 : Applicant := { business_name := "Acme", fein := some "123456789" }

/-- C8 witness applicant: a conventionally formatted FEIN. -/
def applC8b : Applicant :=
  { business_name := "Acme", fein := some "12-3456789" }

/-- C3 witness, first document: applicant and coverage candidates with
distinct confidences, plus a location. -/
def frC : FileResult :=
  { status := "completed",
    extracted := { applicant := some { conf := 2 / 5 },
                   coverage := some { conf := 3 / 5 },
                   locations := [{ conf := 1 / 5 }] } }

/-- C3 witness, second document: higher-confidence applicant and
coverage candidates. -/
def frD : FileResult :=
  { status := "completed",
    extracted := { applicant := some { conf := 9 / 10 },
                   coverage := some { conf := 7 / 10 },
                   locations := [{ conf := 4 / 5 }] } }

/-- The applicant.fein-path filter predicate over issues. -/
def pFein (i : Issue) : Bool := i.field_path == "applicant.fein"

/-- The FEIN invalid-format issue emitted by applicant validation. -/
def feinIssue (fein : Option String) : Issue :=
  { field_path := "applicant.fein", severity := .error,
    category := .invalid_format,
    message := "Invalid FEIN format (expected XX-XXXXXXX)",
    current_value := some (vOptStr fein) }

/-! ## Theorems -/

/-- An ok result of validate_applicant is the built record. -/
lemma validateApplicant_ok {env : Env} {a : Applicant} {strict : Bool}
    {ev : EntityValidation} (h : validateApplicant env a strict = .ok ev) :
    ev = applicantEntity env a strict := by
  unfold validateApplicant at h
  dsimp only at h
  split at h
  · injection h with h2
    exact h2.symm
  · exact Except.noConfusion h

/-- An ok result of validate_location is the built record. -/
lemma validateLocation_ok {env : Env} {l : PropertyLocation} {strict : Bool}
    {i : Nat} {ev : EntityValidation}
    (h : validateLocation env l strict i = .ok ev) :
    ev = locationEntity env l strict i := by
  unfold validateLocation at h
  dsimp only at h
  split at h
  · injection h with h2
    exact h2.symm
  · exact Except.noConfusion h

/-- An ok result of validate_coverage is the built record. -/
lemma validateCoverage_ok {env : Env} {c : Coverage} {strict : Bool}
    {ev : EntityValidation} (h : validateCoverage env c strict = .ok ev) :
    ev = coverageEntity env c strict := by
  unfold validateCoverage at h
  dsimp only at h
  split at h
  · injection h with h2
    exact h2.symm
  · exact Except.noConfusion h

/-- An ok result of validate_loss is the built record. -/
lemma validateLoss_ok {env : Env} {l : LossHistory} {strict : Bool}
    {i : Nat} {ev : EntityValidation}
    (h : validateLoss env l strict i = .ok ev) :
    ev = lossEntity env l strict i := by
  unfold validateLoss at h
  dsimp only at h
  split at h
  · injection h with h2
    exact h2.symm
  · exact Except.noConfusion h

/-- An ok applicant phase delivers the mapped entity record. -/
lemma applicantStep_ok {env : Env} {strict : Bool} {oa : Option Applicant}
    {v : Option EntityValidation} (h : applicantStep env strict oa = .ok v) :
    v = oa.map (fun a => applicantEntity env a strict) := by
  cases oa with
  | none =>
    unfold applicantStep at h
    dsimp only at h
    injection h with h2
    rw [← h2]
    rfl
  | some a =>
    unfold applicantStep at h
    dsimp only at h
    cases hx : validateApplicant env a strict with
    | error e => rw [hx] at h; exact Except.noConfusion h
    | ok ev =>
      rw [hx] at h
      dsimp only [Except.map] at h
      injection h with h2
      rw [← h2, validateApplicant_ok hx]
      rfl

/-- An ok coverage phase delivers the mapped entity record. -/
lemma coverageStep_ok {env : Env} {strict : Bool} {oc : Option Coverage}
    {v : Option EntityValidation} (h : coverageStep env strict oc = .ok v) :
    v = oc.map (fun c => coverageEntity env c strict) := by
  cases oc with
  | none =>
    unfold coverageStep at h
    dsimp only at h
    injection h with h2
    rw [← h2]
    rfl
  | some c =>
    unfold coverageStep at h
    dsimp only at h
    cases hx : validateCoverage env c strict with
    | error e => rw [hx] at h; exact Except.noConfusion h
    | ok ev =>
      rw [hx] at h
      dsimp only [Except.map] at h
      injection h with h2
      rw [← h2, validateCoverage_ok hx]
      rfl

/-- An ok exception-collecting loop delivers the mapped list. -/
lemma exceptMapList_ok {α β : Type _} {f : α → Except PyExn β} {g : α → β}
    (hfg : ∀ a y, f a = .ok y → y = g a) :
    ∀ {l : List α} {ys : List β},
      exceptMapList f l = .ok ys → ys = l.map g := by
  intro l
  induction l with
  | nil =>
    intro ys h
    unfold exceptMapList at h
    injection h with h2
    rw [← h2]
    rfl
  | cons x t ih =>
    intro ys h
    unfold exceptMapList at h
    cases hx : f x with
    | error e => rw [hx] at h; exact Except.noConfusion h
    | ok y =>
      rw [hx] at h
      dsimp only at h
      cases ht : exceptMapList f t with
      | error e => rw [ht] at h; exact Except.noConfusion h
      | ok rest =>
        rw [ht] at h
        dsimp only at h
        injection h with h2
        rw [← h2, List.map_cons, hfg x y hx, ih ht]

/-- Inverting a successful validate_submission: every phase succeeded,
and the result is the assembled record over the cross-field issues. -/
lemma validateSubmission_ok {env : Env} {sub : Submission} {strict : Bool}
    {r : ValidationResult} (h : validateSubmission env sub strict = .ok r) :
    ∃ cross, crossFields sub = .ok cross ∧
      r = submissionResult env sub strict cross := by
  unfold validateSubmission at h
  cases hA : applicantStep env strict sub.applicant with
  | error e => rw [hA] at h; exact Except.noConfusion h
  | ok applicantVal =>
    rw [hA] at h
    dsimp only at h
    cases hL : exceptMapList (fun il => validateLocation env il.2 strict il.1)
        sub.locations.enum with
    | error e => rw [hL] at h; exact Except.noConfusion h
    | ok locationVals =>
      rw [hL] at h
      dsimp only at h
      cases hC : coverageStep env strict sub.coverage with
      | error e => rw [hC] at h; exact Except.noConfusion h
      | ok coverageVal =>
        rw [hC] at h
        dsimp only at h
        cases hLo : exceptMapList
            (fun il => validateLoss env il.2 strict il.1)
            sub.loss_history.enum with
        | error e => rw [hLo] at h; exact Except.noConfusion h
        | ok lossVals =>
          rw [hLo] at h
          dsimp only at h
          cases hX : crossFields sub with
          | error e => rw [hX] at h; exact Except.noConfusion h
          | ok cross =>
            rw [hX] at h
            dsimp only at h
            split at h
            · refine ⟨cross, rfl, ?_⟩
              injection h with h2
              rw [← h2]
              unfold submissionResult
              rw [applicantStep_ok hA,
                exceptMapList_ok (fun a y hy => validateLocation_ok hy) hL,
                coverageStep_ok hC,
                exceptMapList_ok (fun a y hy => validateLoss_ok hy) hLo]
            · exact Except.noConfusion h

/-- The truthiness-guarded monetary term equals the plain
None-contributes-zero term. -/
lemma tq_term (o : Option ℚ) : (if tQ o then o.getD 0 else 0) = o.getD 0 := by
  cases o with
  | none => rfl
  | some q => by_cases h : q = 0 <;> simp [tQ, h]

/-- C4: a PropertyLocation constructed without an explicitly supplied
non-null total_insured_value ends up with TIV equal to
building + contents + business-income (absent components contributing
zero), and a supplied non-null TIV is kept unchanged. -/
theorem c4_tiv_recomputed (p : PropertyLocation) :
    p.postInit.total_insured_value =
      some (match p.total_insured_value with
        | none => p.building_value.getD 0 + p.contents_value.getD 0 +
            p.business_income_value.getD 0
        | some q => q) := by
  unfold PropertyLocation.postInit
  cases htiv : p.total_insured_value with
  | none =>
    simp only [htiv]
    split <;> simp [PropertyLocation.calculateTIV, tq_term]
  | some q =>
    simp only [htiv]
    split <;> simp [htiv]

/-- C5: whenever validate_submission returns a result (a fully populated
entity or a zero cross-field denominator instead raises), that result's
gates are coherent: is_valid holds exactly when the blocking-error count
is zero, generation requires validity and completeness at least 80,
carrier submission validity and completeness at least 95; both
thresholds are literals of validate_submission. -/
theorem c5_gating (env : Env) (sub : Submission) (strict : Bool)
    (r : ValidationResult)
    (hok : validateSubmission env sub strict = .ok r) :
    (r.is_valid = true ↔ r.blocking_errors = 0) ∧
    (r.can_proceed_to_generation = true ↔
      (r.is_valid = true ∧ 80 ≤ r.completeness_percentage)) ∧
    (r.can_submit_to_carrier = true ↔
      (r.is_valid = true ∧ 95 ≤ r.completeness_percentage)) := by
  obtain ⟨cross, hcs, hr⟩ := validateSubmission_ok hok
  subst hr
  unfold submissionResult mkValidationResult
  simp [Bool.and_eq_true, decide_eq_true_eq]

/-- C5 witness: the gates checked on the concrete result of validating
subC1. -/
theorem c5_gating_witness :
    ((rC1.is_valid = true ↔ rC1.blocking_errors = 0) ∧
     (rC1.can_proceed_to_generation = true ↔
       (rC1.is_valid = true ∧ 80 ≤ rC1.completeness_percentage)) ∧
     (rC1.can_submit_to_carrier = true ↔
       (rC1.is_valid = true ∧ 95 ≤ rC1.completeness_percentage))) :=
  c5_gating envTriv subC1 false rC1 rfl

/-- C5 counterexample: a submission for which validate_submission raises
instead of returning any result — the cross-field TIV comparison divides
by max(0.0, -1.0) = 0.0 and Python raises ZeroDivisionError — so there
is no validation result whose gates could hold. -/
theorem c5_counterexample :
    validateSubmission envTriv subC5x false = .error .zeroDivisionError :=
  rfl

/-- Two distinct members force length at least two. -/
lemma two_le_length_of_mem_ne {α : Type _} {a b : α} {l : List α}
    (ha : a ∈ l) (hb : b ∈ l) (hne : a ≠ b) : 2 ≤ l.length := by
  match l with
  | [] => cases ha
  | [x] =>
    rw [List.mem_singleton] at ha hb
    exact absurd (ha.trans hb.symm) hne
  | x :: y :: t => simp [List.length_cons]

/-- C10: with an empty locations list, whenever validate_submission
returns a result it contains both the required-field missing-locations
error and the BR001 business-rule error; they are distinct blocking
errors, so at least two blocking errors and two total errors are
reported and the result is invalid. -/
theorem c10_missing_locations (env : Env) (sub : Submission) (strict : Bool)
    (r : ValidationResult) (h : sub.locations = [])
    (hok : validateSubmission env sub strict = .ok r) :
    missingLocationsIssue ∈ r.errors ∧
    br001Issue ∈ r.errors ∧
    missingLocationsIssue ≠ br001Issue ∧
    2 ≤ r.blocking_errors ∧
    2 ≤ r.total_errors ∧
    r.is_valid = false := by
  obtain ⟨cross, hcs, hr⟩ := validateSubmission_ok hok
  subst hr
  have hne : missingLocationsIssue ≠ br001Issue := by
    intro he
    have := congrArg Issue.rule_id he
    simp [missingLocationsIssue, br001Issue] at this
  have hmem1 : missingLocationsIssue ∈
      (submissionResult env sub strict cross).errors := by
    unfold submissionResult mkValidationResult
    simp [h, List.mem_append, missingLocationsIssue]
  have hmem2 : br001Issue ∈
      (submissionResult env sub strict cross).errors := by
    unfold submissionResult mkValidationResult
    simp [h, List.mem_append, businessRules, br001Issue]
  have hb : (submissionResult env sub strict cross).blocking_errors =
      (((submissionResult env sub strict cross).errors.filter
        (·.blocking)).length) := rfl
  have ht : (submissionResult env sub strict cross).total_errors =
      ((submissionResult env sub strict cross).errors.length) := rfl
  have hv : (submissionResult env sub strict cross).is_valid =
      decide ((((submissionResult env sub strict cross).errors.filter
        (·.blocking)).length) = 0) := rfl
  have h2 : 2 ≤ (((submissionResult env sub strict cross).errors.filter
      (·.blocking)).length) :=
    two_le_length_of_mem_ne (List.mem_filter.mpr ⟨hmem1, rfl⟩)
      (List.mem_filter.mpr ⟨hmem2, rfl⟩) hne
  refine ⟨hmem1, hmem2, hne, ?_, ?_, ?_⟩
  · rw [hb]; exact h2
  · rw [ht]; exact two_le_length_of_mem_ne hmem1 hmem2 hne
  · rw [hv]
    exact decide_eq_false_iff_not.mpr (by omega)

/-- The merge step leaves the applicant unchanged unless the document
completed and carried an applicant candidate, in which case the
higher-confidence pick applies. -/
lemma mergeStep_applicant (m : Extracted) (r : FileResult) :
    (mergeStep m r).applicant =
      if r.status = "completed" then
        match r.extracted.applicant with
        | none => m.applicant
        | some c => pickHigher m.applicant c
      else m.applicant := by
  unfold mergeStep
  by_cases h : r.status = "completed"
  · simp only [h, ne_eq, not_true_eq_false, if_false, if_true]
    cases r.extracted.applicant <;> cases r.extracted.coverage <;>
      by_cases h2 : r.extracted.locations.isEmpty <;>
      by_cases h3 : r.extracted.loss_history.isEmpty <;> simp [h2, h3]
  · simp [h]

/-- Same, for coverage. -/
lemma mergeStep_coverage (m : Extracted) (r : FileResult) :
    (mergeStep m r).coverage =
      if r.status = "completed" then
        match r.extracted.coverage with
        | none => m.coverage
        | some c => pickHigher m.coverage c
      else m.coverage := by
  unfold mergeStep
  by_cases h : r.status = "completed"
  · simp only [h, ne_eq, not_true_eq_false, if_false, if_true]
    cases r.extracted.applicant <;> cases r.extracted.coverage <;>
      by_cases h2 : r.extracted.locations.isEmpty <;>
      by_cases h3 : r.extracted.loss_history.isEmpty <;> simp [h2, h3]
  · simp [h]

/-- The merge step appends the document's location candidates for
completed documents. -/
lemma mergeStep_locations (m : Extracted) (r : FileResult) :
    (mergeStep m r).locations =
      if r.status = "completed" then m.locations ++ r.extracted.locations
      else m.locations := by
  unfold mergeStep
  by_cases h : r.status = "completed"
  · simp only [h, ne_eq, not_true_eq_false, if_false, if_true]
    cases r.extracted.applicant <;> cases r.extracted.coverage <;>
      by_cases h2 : r.extracted.locations.isEmpty <;>
      by_cases h3 : r.extracted.loss_history.isEmpty <;>
      simp_all [List.isEmpty_iff]
  · simp [h]

/-- The merge step appends the document's loss candidates for completed
documents. -/
lemma mergeStep_losses (m : Extracted) (r : FileResult) :
    (mergeStep m r).loss_history =
      if r.status = "completed" then m.loss_history ++ r.extracted.loss_history
      else m.loss_history := by
  unfold mergeStep
  by_cases h : r.status = "completed"
  · simp only [h, ne_eq, not_true_eq_false, if_false, if_true]
    cases r.extracted.applicant <;> cases r.extracted.coverage <;>
      by_cases h2 : r.extracted.locations.isEmpty <;>
      by_cases h3 : r.extracted.loss_history.isEmpty <;>
      simp_all [List.isEmpty_iff]
  · simp [h]

/-- Cons law of the applicant-candidate list. -/
lemma applicantCandidates_cons (r : FileResult) (t : List FileResult) :
    applicantCandidates (r :: t) =
      if r.status = "completed" then
        match r.extracted.applicant with
        | none => applicantCandidates t
        | some c => c :: applicantCandidates t
      else applicantCandidates t := by
  unfold applicantCandidates
  by_cases h : r.status = "completed" <;>
    cases hc : r.extracted.applicant <;>
    simp [List.filter_cons, h, hc, List.filterMap_cons]

/-- Cons law of the coverage-candidate list. -/
lemma coverageCandidates_cons (r : FileResult) (t : List FileResult) :
    coverageCandidates (r :: t) =
      if r.status = "completed" then
        match r.extracted.coverage with
        | none => coverageCandidates t
        | some c => c :: coverageCandidates t
      else coverageCandidates t := by
  unfold coverageCandidates
  by_cases h : r.status = "completed" <;>
    cases hc : r.extracted.coverage <;>
    simp [List.filter_cons, h, hc, List.filterMap_cons]

/-- The folded merge computes its applicant by folding the
higher-confidence pick over the applicant-candidate list. -/
lemma merge_applicant_fold (rs : List FileResult) : ∀ m : Extracted,
    (rs.foldl mergeStep m).applicant =
      (applicantCandidates rs).foldl pickHigher m.applicant := by
  induction rs with
  | nil => intro m; rfl
  | cons r t ih =>
    intro m
    rw [List.foldl_cons, ih, applicantCandidates_cons, mergeStep_applicant]
    by_cases h : r.status = "completed" <;>
      cases hc : r.extracted.applicant <;> simp [h, hc]

/-- Same, for coverage. -/
lemma merge_coverage_fold (rs : List FileResult) : ∀ m : Extracted,
    (rs.foldl mergeStep m).coverage =
      (coverageCandidates rs).foldl pickHigher m.coverage := by
  induction rs with
  | nil => intro m; rfl
  | cons r t ih =>
    intro m
    rw [List.foldl_cons, ih, coverageCandidates_cons, mergeStep_coverage]
    by_cases h : r.status = "completed" <;>
      cases hc : r.extracted.coverage <;> simp [h, hc]

/-- The folded merge concatenates location candidates in document order. -/
lemma merge_locations_fold (rs : List FileResult) : ∀ m : Extracted,
    (rs.foldl mergeStep m).locations = m.locations ++ locationCandidates rs := by
  induction rs with
  | nil => intro m; simp [locationCandidates]
  | cons r t ih =>
    intro m
    rw [List.foldl_cons, ih, mergeStep_locations]
    unfold locationCandidates
    by_cases h : r.status = "completed" <;> simp [List.filter_cons, h]

/-- The folded merge concatenates loss candidates in document order. -/
lemma merge_losses_fold (rs : List FileResult) : ∀ m : Extracted,
    (rs.foldl mergeStep m).loss_history = m.loss_history ++ lossCandidates rs := by
  induction rs with
  | nil => intro m; simp [lossCandidates]
  | cons r t ih =>
    intro m
    rw [List.foldl_cons, ih, mergeStep_losses]
    unfold lossCandidates
    by_cases h : r.status = "completed" <;> simp [List.filter_cons, h]

/-- The higher-confidence pick on a present accumulator, as a packaged
conditional. -/
lemma pickHigher_some (e c : Candidate) :
    pickHigher (some e) c = some (if e.conf < c.conf then c else e) := by
  by_cases h : e.conf < c.conf <;> simp [pickHigher, h]

/-- Cons unfolding of the spec-side first-seen maximum. -/
lemma specFirstMax_cons (c : Candidate) (t : List Candidate) :
    specFirstMax (c :: t) =
      match specFirstMax t with
      | none => some c
      | some m => if c.conf < m.conf then some m else some c := rfl

/-- Folding the higher-confidence pick from a seed candidate yields the
seed unless the list's first-seen maximum strictly beats it. -/
lemma foldl_pickHigher_some (t : List Candidate) : ∀ e : Candidate,
    t.foldl pickHigher (some e) =
      some (match specFirstMax t with
        | none => e
        | some m => if e.conf < m.conf then m else e) := by
  induction t with
  | nil => intro e; rfl
  | cons c t ih =>
    intro e
    rw [List.foldl_cons, pickHigher_some, ih, specFirstMax_cons]
    cases hm : specFirstMax t with
    | none =>
      by_cases h1 : e.conf < c.conf <;> simp [hm, h1]
    | some m =>
      by_cases h1 : e.conf < c.conf <;> by_cases h2 : c.conf < m.conf <;>
        by_cases h3 : e.conf < m.conf <;> simp [hm, h1, h2, h3] <;> linarith

/-- Folding the higher-confidence pick from an empty accumulator
computes the spec-side first-seen maximum. -/
lemma foldl_pickHigher_none (l : List Candidate) :
    l.foldl pickHigher none = specFirstMax l := by
  cases l with
  | nil => rfl
  | cons c t =>
    rw [List.foldl_cons]
    show t.foldl pickHigher (some c) = _
    rw [foldl_pickHigher_some, specFirstMax_cons]
    cases hm : specFirstMax t with
    | none => simp [hm]
    | some m =>
      dsimp only
      split <;> rfl

/-- The spec-side first-seen maximum is empty only on the empty list. -/
lemma specFirstMax_eq_none {l : List Candidate} :
    specFirstMax l = none ↔ l = [] := by
  cases l with
  | nil => simp [specFirstMax]
  | cons c t =>
    rw [specFirstMax_cons]
    cases hm : specFirstMax t <;> simp [hm]
    split <;> simp

/-- The spec-side first-seen maximum is an element of the list. -/
lemma specFirstMax_mem : ∀ {l : List Candidate} {c : Candidate},
    specFirstMax l = some c → c ∈ l := by
  intro l
  induction l with
  | nil => intro c h; cases h
  | cons a t ih =>
    intro c h
    rw [specFirstMax_cons] at h
    cases hm : specFirstMax t with
    | none =>
      rw [hm] at h
      dsimp only at h
      cases Option.some.inj h
      exact List.mem_cons_self a t
    | some m =>
      rw [hm] at h
      dsimp only at h
      by_cases hlt : a.conf < m.conf
      · rw [if_pos hlt] at h
        cases Option.some.inj h
        exact List.mem_cons_of_mem a (ih hm)
      · rw [if_neg hlt] at h
        cases Option.some.inj h
        exact List.mem_cons_self a t

/-- Every list element's confidence is bounded by the first-seen
maximum's confidence. -/
lemma specFirstMax_le : ∀ {l : List Candidate} {c : Candidate},
    specFirstMax l = some c → ∀ d ∈ l, d.conf ≤ c.conf := by
  intro l
  induction l with
  | nil => intro c h; cases h
  | cons a t ih =>
    intro c h d hd
    rw [specFirstMax_cons] at h
    cases hm : specFirstMax t with
    | none =>
      rw [hm] at h
      dsimp only at h
      cases Option.some.inj h
      have ht : t = [] := specFirstMax_eq_none.mp hm
      subst ht
      rcases List.mem_cons.mp hd with rfl | h0
      · exact le_refl _
      · cases h0
    | some m =>
      rw [hm] at h
      dsimp only at h
      by_cases hlt : a.conf < m.conf
      · rw [if_pos hlt] at h
        cases Option.some.inj h
        rcases List.mem_cons.mp hd with rfl | hdt
        · exact le_of_lt hlt
        · exact ih hm d hdt
      · rw [if_neg hlt] at h
        cases Option.some.inj h
        rcases List.mem_cons.mp hd with rfl | hdt
        · exact le_refl _
        · exact le_trans (ih hm d hdt) (not_lt.mp hlt)

/-- Under pairwise-distinct confidences, any element that bounds the
whole list is the first-seen maximum. -/
lemma specFirstMax_of_max : ∀ {l : List Candidate} {c : Candidate},
    l.Pairwise (fun x y => x.conf ≠ y.conf) → c ∈ l →
    (∀ d ∈ l, d.conf ≤ c.conf) → specFirstMax l = some c := by
  intro l
  induction l with
  | nil => intro c _ hc _; cases hc
  | cons a t ih =>
    intro c hp hc hmax
    have hpa := List.pairwise_cons.mp hp
    rw [specFirstMax_cons]
    rcases List.mem_cons.mp hc with rfl | hct
    · cases hm : specFirstMax t with
      | none => rfl
      | some m =>
        have hml : m.conf ≤ c.conf :=
          hmax m (List.mem_cons_of_mem _ (specFirstMax_mem hm))
        dsimp only
        rw [if_neg (not_lt.mpr hml)]
    · have hst : specFirstMax t = some c :=
        ih hpa.2 hct (fun d hd => hmax d (List.mem_cons_of_mem _ hd))
      rw [hst]
      dsimp only
      have hle : a.conf ≤ c.conf := hmax a (List.mem_cons_self a t)
      have hne : a.conf ≠ c.conf := hpa.1 c hct
      rw [if_pos (lt_of_le_of_ne hle hne)]

/-- Under pairwise-distinct confidences the first-seen maximum is
invariant under permutation of the candidate list. -/
lemma specFirstMax_perm {l l2 : List Candidate} (h : l.Perm l2)
    (hp : l.Pairwise (fun x y => x.conf ≠ y.conf)) :
    specFirstMax l = specFirstMax l2 := by
  cases hm : specFirstMax l with
  | none =>
    rw [specFirstMax_eq_none.mp hm] at h
    rw [specFirstMax_eq_none.mpr h.symm.eq_nil]
  | some c =>
    have hmem : c ∈ l2 := h.mem_iff.mp (specFirstMax_mem hm)
    have hmax : ∀ d ∈ l2, d.conf ≤ c.conf := fun d hd =>
      specFirstMax_le hm d (h.mem_iff.mpr hd)
    have hp2 : l2.Pairwise (fun x y => x.conf ≠ y.conf) :=
      (h.pairwise_iff (fun hne => hne.symm)).mp hp
    exact (specFirstMax_of_max hp2 hmem hmax).symm

/-- The merged applicant is the higher-confidence fold over the
applicant candidates. -/
lemma merge_applicant (rs : List FileResult) :
    (mergeExtractionResults rs).applicant =
      specFirstMax (applicantCandidates rs) := by
  unfold mergeExtractionResults
  rw [merge_applicant_fold]
  exact foldl_pickHigher_none _

/-- The merged coverage is the higher-confidence fold over the coverage
candidates. -/
lemma merge_coverage (rs : List FileResult) :
    (mergeExtractionResults rs).coverage =
      specFirstMax (coverageCandidates rs) := by
  unfold mergeExtractionResults
  rw [merge_coverage_fold]
  exact foldl_pickHigher_none _

/-- The merged locations are the concatenation of the completed
documents' location candidates, in document order. -/
lemma merge_locations (rs : List FileResult) :
    (mergeExtractionResults rs).locations = locationCandidates rs := by
  unfold mergeExtractionResults
  rw [merge_locations_fold]
  rfl

/-- The merged losses are the concatenation of the completed documents'
loss candidates, in document order. -/
lemma merge_losses (rs : List FileResult) :
    (mergeExtractionResults rs).loss_history = lossCandidates rs := by
  unfold mergeExtractionResults
  rw [merge_losses_fold]
  rfl

/-- C2: for every list of per-document results, the merged applicant
and the merged coverage are exactly the first-seen highest-confidence
candidate among the successfully extracted documents (specFirstMax is
the spec-side transcription of that rule: the candidate with the
numerically highest confidence, kept whole, the first-seen one winning
ties; specFirstMax_mem and specFirstMax_le establish that it is a
candidate of maximal confidence). -/
theorem c2_merge_keeps_highest_confidence (rs : List FileResult) :
    (mergeExtractionResults rs).applicant =
      specFirstMax (applicantCandidates rs) ∧
    (mergeExtractionResults rs).coverage =
      specFirstMax (coverageCandidates rs) :=
  ⟨merge_applicant rs, merge_coverage rs⟩

/-- C3 counterexample: the merge is not invariant under permutation of
the per-document results — swapping two completed documents that each
contribute one location reverses the merged locations list, so the
merged output (its locations component) differs, refuting the claim
that merging any permutation yields the same merged output. -/
theorem c3_counterexample :
    List.Perm [frA, frB] [frB, frA] ∧
    (mergeExtractionResults [frA, frB]).locations ≠
      (mergeExtractionResults [frB, frA]).locations := by
  constructor
  · exact List.Perm.swap frB frA []
  · intro h
    have e1 : (mergeExtractionResults [frA, frB]).locations =
        [{ conf := 1 / 2 }, { conf := 9 / 10 }] := rfl
    have e2 : (mergeExtractionResults [frB, frA]).locations =
        [{ conf := 9 / 10 }, { conf := 1 / 2 }] := rfl
    rw [e1, e2] at h
    have h2 : ({ conf := 1 / 2 } : Candidate) = { conf := 9 / 10 } :=
      (List.cons.injEq _ _ _ _).mp h |>.1
    have h3 := congrArg Candidate.conf h2
    norm_num at h3

/-- C3 amended: permutation invariance holds in the weaker form the
code supports — the merged applicant and coverage are invariant under
permutation of the per-document results provided no two applicant
candidates and no two coverage candidates share a confidence (ties are
resolved by document order), and the merged locations and loss history
of a permuted input are a permutation (not necessarily an equal list)
of the original merge. -/
theorem c3_amended_order_independence (rs rs2 : List FileResult)
    (h : rs.Perm rs2)
    (ha : (applicantCandidates rs).Pairwise (fun x y => x.conf ≠ y.conf))
    (hc : (coverageCandidates rs).Pairwise (fun x y => x.conf ≠ y.conf)) :
    (mergeExtractionResults rs).applicant =
      (mergeExtractionResults rs2).applicant ∧
    (mergeExtractionResults rs).coverage =
      (mergeExtractionResults rs2).coverage ∧
    (mergeExtractionResults rs).locations.Perm
      (mergeExtractionResults rs2).locations ∧
    (mergeExtractionResults rs).loss_history.Perm
      (mergeExtractionResults rs2).loss_history := by
  have hfilter : (rs.filter (fun r => r.status = "completed")).Perm
      (rs2.filter (fun r => r.status = "completed")) := h.filter _
  refine ⟨?_, ?_, ?_, ?_⟩
  · rw [merge_applicant, merge_applicant]
    exact specFirstMax_perm (hfilter.filterMap _) ha
  · rw [merge_coverage, merge_coverage]
    exact specFirstMax_perm (hfilter.filterMap _) hc
  · rw [merge_locations, merge_locations]
    exact hfilter.flatMap_right _
  · rw [merge_losses, merge_losses]
    exact hfilter.flatMap_right _

/-- C3 amended witness: two concrete completed documents with distinct
applicant and coverage confidences, swapped. -/
theorem c3_amended_witness :
    (mergeExtractionResults [frC, frD]).applicant =
      (mergeExtractionResults [frD, frC]).applicant ∧
    (mergeExtractionResults [frC, frD]).coverage =
      (mergeExtractionResults [frD, frC]).coverage ∧
    (mergeExtractionResults [frC, frD]).locations.Perm
      (mergeExtractionResults [frD, frC]).locations ∧
    (mergeExtractionResults [frC, frD]).loss_history.Perm
      (mergeExtractionResults [frD, frC]).loss_history :=
  c3_amended_order_independence [frC, frD] [frD, frC]
    (List.Perm.swap frD frC [])
    (by
      have e : applicantCandidates [frC, frD] =
          [{ conf := 2 / 5 }, { conf := 9 / 10 }] := rfl
      rw [e]
      refine List.pairwise_cons.mpr ⟨?_, List.pairwise_singleton _ _⟩
      intro b hb
      rw [List.mem_singleton] at hb
      subst hb
      norm_num)
    (by
      have e : coverageCandidates [frC, frD] =
          [{ conf := 3 / 5 }, { conf := 7 / 10 }] := rfl
      rw [e]
      refine List.pairwise_cons.mpr ⟨?_, List.pairwise_singleton _ _⟩
      intro b hb
      rw [List.mem_singleton] at hb
      subst hb
      norm_num)

/-- No location field path is the coverage expiration path. -/
lemma locPath_append_ne (i : Nat) (s : String) :
    locPath i ++ s ≠ "coverage.expiration_date" := by
  intro h
  have hd : (locPath i ++ s).data = "coverage.expiration_date".data := by
    rw [h]
  unfold locPath at hd
  simp only [String.data_append] at hd
  simp only [List.cons_append] at hd
  injection hd with h1 _
  exact absurd h1 (by decide)

/-- No loss field path is the coverage expiration path. -/
lemma lossPath_append_ne (i : Nat) (s : String) :
    lossPath i ++ s ≠ "coverage.expiration_date" := by
  intro h
  have hd : (lossPath i ++ s).data = "coverage.expiration_date".data := by
    rw [h]
  unfold lossPath at hd
  simp only [String.data_append] at hd
  simp only [List.cons_append] at hd
  injection hd with h1 _
  exact absurd h1 (by decide)

/-- Applicant validation never emits a blocking issue at the coverage
expiration path. -/
lemma filter_pExp_applicant (env : Env) (a : Applicant) (strict : Bool) :
    (applicantEntity env a strict).errors.filter pExp = [] := by
  unfold applicantEntity
  dsimp only
  simp only [List.filter_append]
  split <;> split <;> split <;> split <;> split <;> split <;>
    simp [pExp]

/-- Filtering an if-guarded block is empty when the block filters to
empty. -/
lemma filter_pExp_ite (c : Prop) [Decidable c] (L : List Issue)
    (h : L.filter pExp = []) : (if c then L else []).filter pExp = [] := by
  split
  · exact h
  · rfl

/-- A singleton whose issue fails the predicate filters to empty. -/
lemma filter_pExp_single (iss : Issue) (h : pExp iss = false) :
    [iss].filter pExp = [] := by
  simp [List.filter_singleton, h]

/-- Location validation never emits a blocking issue at the coverage
expiration path (its paths all live under locations[i]). -/
lemma filter_pExp_location (env : Env) (l : PropertyLocation) (strict : Bool)
    (i : Nat) :
    (locationEntity env l strict i).errors.filter pExp = [] := by
  unfold locationEntity
  dsimp only
  simp only [List.filter_append, List.append_eq_nil]
  refine ⟨⟨⟨⟨⟨⟨?_, ?_⟩, ?_⟩, ?_⟩, ?_⟩, ?_⟩, ?_⟩
  · apply filter_pExp_ite
    apply filter_pExp_single
    exact beq_eq_false_iff_ne.mpr (locPath_append_ne i ".address_line1")
  · apply filter_pExp_ite
    apply filter_pExp_single
    exact beq_eq_false_iff_ne.mpr (locPath_append_ne i ".city")
  · split
    · apply filter_pExp_single
      exact beq_eq_false_iff_ne.mpr (locPath_append_ne i ".state")
    · apply filter_pExp_ite
      exact filter_pExp_single _ rfl
  · split
    · apply filter_pExp_single
      exact beq_eq_false_iff_ne.mpr (locPath_append_ne i ".zip_code")
    · apply filter_pExp_ite
      exact filter_pExp_single _ rfl
  · apply filter_pExp_ite
    exact filter_pExp_single _ rfl
  · apply filter_pExp_ite
    exact filter_pExp_single _ rfl
  · apply filter_pExp_ite
    split
    · exact filter_pExp_single _ rfl
    · apply filter_pExp_ite
      exact filter_pExp_single _ rfl

/-- Loss validation emits no errors at all (the loss_date of a
constructed LossHistory is always present). -/
lemma lossEntity_errors (env : Env) (l : LossHistory) (strict : Bool)
    (i : Nat) : (lossEntity env l strict i).errors = [] := rfl

/-- A successful cross-field pass contributes nothing to the error list
(its only issue is a warning). -/
lemma cross_error_filter (sub : Submission) (cs : List Issue)
    (h : crossFields sub = .ok cs) :
    cs.filter (fun i => i.severity = Severity.error) = [] := by
  unfold crossFields at h
  dsimp only at h
  split at h
  · split at h
    · split at h
      · exact Except.noConfusion h
      · split at h
        · injection h with h2
          rw [← h2]
          simp
        · injection h with h2
          rw [← h2]
          rfl
    · injection h with h2
      rw [← h2]
      rfl
  · injection h with h2
    rw [← h2]
    rfl

/-- Business rules contribute no blocking issue at the coverage
expiration path (BR001 lives at locations, BR002 issues are warnings
and non-blocking). -/
lemma br_error_pExp_filter (sub : Submission) (strict : Bool) :
    ((businessRules sub strict).filter
      (fun i => i.severity = Severity.error)).filter pExp = [] := by
  unfold businessRules
  simp only [List.filter_append, List.append_eq_nil]
  constructor
  · split <;> simp [pExp]
  · rw [List.filter_flatMap, List.filter_flatMap]
    apply List.flatMap_eq_nil_iff.mpr
    intro il _
    split <;> simp

/-- With both dates present and expiration not after effective, the
coverage validator emits exactly one blocking error, the invalid-value
expiration issue. -/
lemma coverageEntity_blocking (env : Env) (c : Coverage) (strict : Bool)
    (ed xd : Int) (he : c.effective_date = some ed)
    (hx : c.expiration_date = some xd) (hle : xd ≤ ed) :
    (coverageEntity env c strict).errors.filter (fun i => i.blocking) =
      [expirationIssue] := by
  unfold coverageEntity
  dsimp only
  rw [he, hx]
  simp only [Option.isSome_some, Option.getD_some, hle, Bool.and_self,
    Bool.true_and, decide_eq_true_eq, if_pos]
  rw [List.filter_append]
  split <;> simp [expirationIssue]

/-- Same, filtered at the expiration path. -/
lemma coverageEntity_pExp (env : Env) (c : Coverage) (strict : Bool)
    (ed xd : Int) (he : c.effective_date = some ed)
    (hx : c.expiration_date = some xd) (hle : xd ≤ ed) :
    (coverageEntity env c strict).errors.filter pExp = [expirationIssue] := by
  unfold coverageEntity
  dsimp only
  rw [he, hx]
  simp only [Option.isSome_some, Option.getD_some, hle, Bool.and_self,
    Bool.true_and, decide_eq_true_eq, if_pos]
  rw [List.filter_append]
  split <;> simp [pExp, expirationIssue]

/-- A flatMap of the constant empty list is empty. -/
lemma flatMap_const_nil {α β : Type _} (l : List α) :
    (l.flatMap fun _ => ([] : List β)) = [] := by
  induction l with
  | nil => rfl
  | cons a t ih => simp [List.flatMap_cons, ih]

/-- Business-rule issues that block never carry the coverage
expiration path. -/
lemma br_no_exp_path (sub : Submission) (strict : Bool) :
    ∀ a ∈ businessRules sub strict, a.blocking = true →
      ¬ a.field_path = "coverage.expiration_date" := by
  intro a ha
  unfold businessRules at ha
  rw [List.mem_append] at ha
  rcases ha with h1 | h2
  · rcases List.mem_ite_nil_right.mp h1 with ⟨_, hmem⟩
    rw [List.mem_singleton] at hmem
    subst hmem
    intro _ hp
    exact absurd hp (by decide)
  · rw [List.mem_flatMap] at h2
    obtain ⟨il, _, hmem⟩ := h2
    rcases List.mem_ite_nil_right.mp hmem with ⟨_, hmem2⟩
    rw [List.mem_singleton] at hmem2
    subst hmem2
    intro hb
    simp at hb

/-- The error-severity business-rule issues filtered at the blocking
expiration path are empty. -/
lemma br_combined_filter (sub : Submission) (strict : Bool) :
    (businessRules sub strict).filter
      (fun a => a.blocking && a.field_path == "coverage.expiration_date" &&
        decide (a.severity = Severity.error)) = [] := by
  apply List.filter_eq_nil_iff.mpr
  intro a ha hc
  simp only [Bool.and_eq_true, beq_iff_eq, decide_eq_true_eq] at hc
  exact absurd hc.1.2 (br_no_exp_path sub strict a ha hc.1.1)

/-- C1: whenever a submission's coverage has both dates set with
expiration on or before effective, and validate_submission returns a
result (a fully populated entity instead raises ValidationError), the
result contains exactly one blocking error at field path
coverage.expiration_date — the invalid-value expiration issue. -/
theorem c1_expiration_exactly_one_blocking (env : Env) (sub : Submission)
    (strict : Bool) (c : Coverage) (ed xd : Int) (r : ValidationResult)
    (hcov : sub.coverage = some c) (he : c.effective_date = some ed)
    (hx : c.expiration_date = some xd) (hle : xd ≤ ed)
    (hok : validateSubmission env sub strict = .ok r) :
    r.errors.filter pExp = [expirationIssue] ∧
    expirationIssue.blocking = true ∧
    expirationIssue.category = Category.invalid_value ∧
    expirationIssue.field_path = "coverage.expiration_date" := by
  obtain ⟨cross, hcs, hr⟩ := validateSubmission_ok hok
  subst hr
  refine ⟨?_, rfl, rfl, rfl⟩
  have hcovf := coverageEntity_pExp env c strict ed xd he hx hle
  have hcrossf := cross_error_filter sub cross hcs
  unfold submissionResult mkValidationResult
  dsimp only
  rw [hcov]
  cases happ : sub.applicant <;> by_cases hloc : sub.locations.isEmpty <;>
    simp only [happ, hloc, if_true, if_false] <;>
    simp [List.filter_append, List.filter_flatMap, List.flatMap_map,
      filter_pExp_applicant, filter_pExp_location, hcovf, lossEntity_errors,
      hcrossf, br_error_pExp_filter, pExp] <;>
    first
      | (intro a ha hb hp
         exact absurd hp (br_no_exp_path sub strict a ha hb))
      | (rw [br_combined_filter]
         simp [flatMap_const_nil])

/-- C1 witness: a concrete coverage whose expiration equals its
effective date yields exactly the one blocking expiration issue. -/
theorem c1_expiration_witness :
    subC1.coverage = some { effective_date := some 20260101,
                            expiration_date := some 20260101 } ∧
    validateSubmission envTriv subC1 false = .ok rC1 ∧
    rC1.errors.filter pExp = [expirationIssue] :=
  ⟨rfl, rfl,
    (c1_expiration_exactly_one_blocking envTriv subC1 false
      { effective_date := some 20260101, expiration_date := some 20260101 }
      20260101 20260101 rC1 rfl rfl rfl le_rfl rfl).1⟩

/-- C1 counterexample: the coverage meets the claim's premise (both
dates set, expiration equal to effective), yet validation raises
pydantic ValidationError — the fully populated applicant's entity
completeness is 103, beyond the schema's le=100 bound — and no blocking
error is produced at all. -/
theorem c1_counterexample :
    subC1x.coverage = some { effective_date := some 20260101,
                             expiration_date := some 20260101 } ∧
    validateSubmission envTriv subC1x false = .error .validationError :=
  ⟨rfl, rfl⟩

/-- C10 witness: the empty submission has no locations, validation
completes, and the result exhibits the two blocking errors. -/
theorem c10_missing_locations_witness :
    ({} : Submission).locations = [] ∧
    validateSubmission envTriv {} false = .ok rC10 ∧
    (missingLocationsIssue ∈ rC10.errors ∧
     br001Issue ∈ rC10.errors ∧
     missingLocationsIssue ≠ br001Issue ∧
     2 ≤ rC10.blocking_errors ∧
     2 ≤ rC10.total_errors ∧
     rC10.is_valid = false) :=
  ⟨rfl, rfl, c10_missing_locations envTriv {} false rC10 rfl rfl⟩

/-- C10 counterexample: with no locations but a fully populated
applicant, validate_applicant raises pydantic ValidationError, so
validate_submission returns no result and records neither
missing-location error. -/
theorem c10_counterexample :
    subC10x.locations = [] ∧
    validateSubmission envTriv subC10x false = .error .validationError :=
  ⟨rfl, rfl⟩

/-- C6 counterexample: validating subC6 completes (applicant entity
completeness 15, coverage 7) and reports completeness 15, while the
claim's floor of the exact weighted sum gives
floor(0.30·15 + 0 + 0.25·7 + 10) = floor(16.25) = 16 — the code
truncates each weighted term on its own, so the claim's formula does
not hold. -/
theorem c6_completeness_counterexample :
    validateSubmission envTriv subC6 false = .ok rC6 ∧
    rC6.completeness_percentage = 15 ∧
    specC6Floor subC6 = 16 := by
  refine ⟨rfl, rfl, rfl⟩

/-- mulPow2 preserves non-negativity. -/
lemma mulPow2_nonneg (q : ℚ) (k : Int) (h : 0 ≤ q) : 0 ≤ mulPow2 q k := by
  unfold mulPow2
  split
  · exact mul_nonneg h (by positivity)
  · exact div_nonneg h (by positivity)

/-- Rounding to nearest preserves non-negativity. -/
lemma rndTiesEven_nonneg (q : ℚ) (h : 0 ≤ q) : 0 ≤ rndTiesEven q := by
  unfold rndTiesEven
  dsimp only
  have hf : (0 : Int) ≤ ⌊q⌋ := Int.le_floor.mpr (by exact_mod_cast h)
  split_ifs <;> omega

/-- Binary64 rounding of a positive rational is non-negative. -/
lemma pyRound64Pos_nonneg (q : ℚ) (h : 0 ≤ q) : 0 ≤ pyRound64Pos q := by
  unfold pyRound64Pos
  exact mulPow2_nonneg _ _ (by
    exact_mod_cast rndTiesEven_nonneg _ (mulPow2_nonneg _ _ h))

/-- Binary64 rounding preserves non-negativity. -/
lemma pyRound64_nonneg (q : ℚ) (h : 0 ≤ q) : 0 ≤ pyRound64 q := by
  unfold pyRound64
  split_ifs with h1 h2
  · exact le_refl 0
  · linarith
  · exact pyRound64Pos_nonneg q h

/-- Python truncation preserves non-negativity. -/
lemma pytrunc_nonneg (q : ℚ) (h : 0 ≤ q) : 0 ≤ pytrunc q := by
  unfold pytrunc
  rw [if_pos h]
  exact Int.le_floor.mpr (by exact_mod_cast h)

/-- Float multiplication of non-negatives is non-negative. -/
lemma pyMul_nonneg (a b : ℚ) (ha : 0 ≤ a) (hb : 0 ≤ b) : 0 ≤ pyMul a b :=
  pyRound64_nonneg _ (mul_nonneg ha hb)

/-- Float division of non-negatives is non-negative. -/
lemma pyDiv_nonneg (a b : ℚ) (ha : 0 ≤ a) (hb : 0 ≤ b) : 0 ≤ pyDiv a b :=
  pyRound64_nonneg _ (div_nonneg ha hb)

/-- Entity completeness percentages are non-negative. -/
lemma entityCompleteness_nonneg (d : List (String × Val)) :
    0 ≤ entityCompleteness d := by
  unfold entityCompleteness
  dsimp only
  split
  · exact le_refl 0
  · exact pytrunc_nonneg _ (pyMul_nonneg _ _
      (pyDiv_nonneg _ _ (by positivity) (by positivity)) (by norm_num))

/-- A fold of integer addition over non-negatives from a non-negative
seed stays non-negative. -/
lemma foldl_add_nonneg : ∀ (l : List Int), (∀ x ∈ l, 0 ≤ x) →
    ∀ init : Int, 0 ≤ init → 0 ≤ l.foldl (· + ·) init := by
  intro l
  induction l with
  | nil => intro _ init h; simpa using h
  | cons a t ih =>
    intro hall init hinit
    rw [List.foldl_cons]
    exact ih (fun x hx => hall x (List.mem_cons_of_mem a hx)) _
      (by have := hall a (List.mem_cons_self a t); omega)

/-- The binary64 literal 0.3 is non-negative. -/
lemma lit03_nonneg : 0 ≤ lit03 := by decide

/-- The binary64 literal 0.25 is non-negative. -/
lemma lit025_nonneg : 0 ≤ lit025 := by decide

/-- The engine's completeness score is within 0..100. -/
lemma calcCompleteness_bounds (sub : Submission) :
    0 ≤ calcCompleteness sub ∧ calcCompleteness sub ≤ 100 := by
  unfold calcCompleteness
  dsimp only
  refine ⟨le_min (by norm_num) ?_, min_le_left _ _⟩
  apply pytrunc_nonneg
  apply pyMul_nonneg _ _ _ (by norm_num)
  apply pyDiv_nonneg _ _ _ (by norm_num)
  have hA : (0 : Int) ≤ (match sub.applicant with
      | some a => pytrunc (pyMul (entityCompleteness a.toDict : ℚ) lit03)
      | none => 0) := by
    cases sub.applicant with
    | some a => exact pytrunc_nonneg _ (pyMul_nonneg _ _
        (by exact_mod_cast entityCompleteness_nonneg _) lit03_nonneg)
    | none => exact le_refl 0
  have hL : (0 : Int) ≤ (if sub.locations.isEmpty then 0
      else
        pytrunc (pyMul (pyDiv
          (((sub.locations.map (fun l => entityCompleteness l.toDict)).foldl
            (· + ·) 0 : Int) : ℚ)
          ((sub.locations.map (fun l => entityCompleteness l.toDict)).length : ℚ))
          lit03)) := by
    split
    · exact le_refl 0
    · refine pytrunc_nonneg _ (pyMul_nonneg _ _
        (pyDiv_nonneg _ _ ?_ (by positivity)) lit03_nonneg)
      have := foldl_add_nonneg
        ((sub.locations.map (fun l => entityCompleteness l.toDict)))
        (by
          intro x hx
          rw [List.mem_map] at hx
          obtain ⟨l, _, rfl⟩ := hx
          exact entityCompleteness_nonneg _) 0 (le_refl 0)
      exact_mod_cast this
  have hC : (0 : Int) ≤ (match sub.coverage with
      | some c => pytrunc (pyMul (entityCompleteness c.toDict : ℚ) lit025)
      | none => 0) := by
    cases sub.coverage with
    | some c => exact pytrunc_nonneg _ (pyMul_nonneg _ _
        (by exact_mod_cast entityCompleteness_nonneg _) lit025_nonneg)
    | none => exact le_refl 0
  have hLoss : (0 : Int) ≤ (if !sub.loss_history.isEmpty then (15 : Int)
      else 10) := by split <;> norm_num
  have : (0 : Int) ≤ _ + _ + _ + _ := add_nonneg (add_nonneg (add_nonneg hA hL) hC) hLoss
  exact_mod_cast this

/-- C6 amended: whenever validate_submission returns a result, its
completeness is the per-term-truncated binary64 formula (each weighted
contribution truncated to an integer before summation, the sum rescaled
through total/100*100 in binary64 and capped at 100), always within
0..100; it is not in general the floor of the exact weighted sum. -/
theorem c6_completeness_amended (env : Env) (sub : Submission)
    (strict : Bool) (r : ValidationResult)
    (hok : validateSubmission env sub strict = .ok r) :
    r.completeness_percentage = specC6Amended sub ∧
    0 ≤ r.completeness_percentage ∧ r.completeness_percentage ≤ 100 := by
  obtain ⟨cross, hcs, hr⟩ := validateSubmission_ok hok
  subst hr
  have he : (submissionResult env sub strict cross).completeness_percentage =
      calcCompleteness sub := rfl
  refine ⟨?_, ?_, ?_⟩
  · rw [he]; rfl
  · rw [he]; exact (calcCompleteness_bounds sub).1
  · rw [he]; exact (calcCompleteness_bounds sub).2

/-- C6 amended witness: the amended completeness equation on the
concrete result of validating subC6. -/
theorem c6_completeness_witness :
    rC6.completeness_percentage = specC6Amended subC6 ∧
    0 ≤ rC6.completeness_percentage ∧ rC6.completeness_percentage ≤ 100 :=
  c6_completeness_amended envTriv subC6 false rC6 rfl

/-- C7 amended: for a canonical key registered as a checkbox whose
physical field resolves, the resolver writes the configured on-token for
a truthy value and the empty string for a falsy-but-present value, but a
None/absent value produces no entry at all for that field (the key is
skipped before the checkbox branch is reached), not an empty-string
entry. -/
theorem c7_checkbox_amended (pIso : String → Option Int)
    (sfm : Int → String → String) (m : Mapping) (data : Val) (key : String)
    (acc : List (String × String)) (f : String)
    (hcb : (m.checkbox_on.lookup key).isSome = true)
    (hres : resolveFieldName m key = some f) :
    processSimpleField pIso sfm m data key acc =
      match getNestedValue data key with
      | none => acc
      | some v => dictSet acc f (if v.truthy then onValue m key else "") := by
  unfold processSimpleField
  cases hv : getNestedValue data key with
  | none => rfl
  | some v =>
    rw [hres]
    dsimp only
    rw [if_pos hcb]

/-- C7 counterexample: with the checkbox key absent from the data, the
resolver output contains no entry for the physical field at all — in
particular its value is not the empty string the claim prescribes for
absent values (truthy and falsy-present values behave as claimed). -/
theorem c7_checkbox_counterexample :
    (buildPdfData pIso0 sfm0 dataC7Absent mapC7).lookup "SprinklerCB" =
      none ∧
    (buildPdfData pIso0 sfm0 dataC7True mapC7).lookup "SprinklerCB" =
      some "Yes" ∧
    (buildPdfData pIso0 sfm0 dataC7False mapC7).lookup "SprinklerCB" =
      some "" := by
  refine ⟨rfl, rfl, rfl⟩

/-- C7 amended witness: the concrete checkbox mapping with a truthy
value resolves to the on-token through the amended rule. -/
theorem c7_checkbox_amended_witness :
    (mapC7.checkbox_on.lookup "flags.sprinkler").isSome = true ∧
    resolveFieldName mapC7 "flags.sprinkler" = some "SprinklerCB" ∧
    processSimpleField pIso0 sfm0 mapC7 dataC7True "flags.sprinkler" [] =
      [("SprinklerCB", "Yes")] :=
  ⟨rfl, rfl, by
    rw [c7_checkbox_amended pIso0 sfm0 mapC7 dataC7True "flags.sprinkler" []
      "SprinklerCB" rfl rfl]
    decide⟩

/-- String equality via BEq is propositional-equality decision. -/
lemma str_beq_decide (s t : String) : (s == t) = decide (s = t) := rfl

/-- Membership of a two-character string in the IRS-invalid prefix list
is the disjunction of the corresponding character tests. -/
lemma feinPair_contains (a b : Char) :
    (!(["00", "07", "08", "09", "17", "18", "19", "78", "79"].contains
        (String.mk [a, b]))) =
    (!((a = '0' && (b = '0' || b = '7' || b = '8' || b = '9')) ||
      (a = '1' && (b = '7' || b = '8' || b = '9')) ||
      (a = '7' && (b = '8' || b = '9')))) := by
  simp only [List.contains, List.elem_cons, List.elem_nil, str_beq_decide,
    Bool.or_false]
  simp only [show ∀ c d, (String.mk [a,b] = String.mk [c,d]) = (a = c ∧ b = d) from
    fun c d => by simp [String.ext_iff]]
  simp only [Bool.decide_and]
  by_cases h0 : a = '0' <;> by_cases h1 : a = '1' <;> by_cases h7 : a = '7' <;>
    by_cases g0 : b = '0' <;> by_cases g7 : b = '7' <;>
    by_cases g8 : b = '8' <;> by_cases g9 : b = '9' <;> simp_all

/-- The source FEIN check agrees with the amended spec rule: nine digits
after stripping non-digits, first two outside the IRS-invalid set. -/
lemma isValidFein_eq_spec (f : String) : isValidFein f = specFeinAmended f := by
  unfold isValidFein specFeinAmended
  dsimp only
  by_cases hf : f = ""
  · simp [hf]
  · rw [if_neg hf]
    by_cases hl : (f.toList.filter Char.isDigit).length = 9
    · rw [if_neg (not_not_intro hl)]
      cases hc : f.toList.filter Char.isDigit with
      | nil => rw [hc] at hl; simp at hl
      | cons a t =>
        cases t with
        | nil => rw [hc] at hl; simp at hl
        | cons b rest =>
          rw [hc] at hl
          have ht : List.take 2 (a :: b :: rest) = [a, b] := rfl
          rw [ht]
          dsimp only
          rw [feinPair_contains]
          simp [hf, hl]
    · rw [if_pos hl]
      have hd : decide ((f.toList.filter Char.isDigit).length = 9) = false :=
        decide_eq_false hl
      rw [hd]
      simp

/-- An if-guarded singleton whose issue is off the FEIN path filters to
empty. -/
lemma filter_pFein_block (c : Prop) [Decidable c] (iss : Issue)
    (h : pFein iss = false) : (if c then [iss] else []).filter pFein = [] := by
  split
  · simp [List.filter_singleton, h]
  · rfl

/-- C8 amended: for an applicant with a non-empty FEIN, whenever
validate_applicant returns a record (a fully populated applicant
instead raises ValidationError), the record's errors contain exactly
one issue on the applicant.fein path — the invalid-format issue —
precisely when `is_valid_fein` rejects the FEIN, and `is_valid_fein`
accepts exactly the strings that keep nine digits after discarding
non-digits whose first two digits avoid the IRS-invalid prefixes; the
hyphen itself is not required. -/
theorem c8_fein_amended (env : Env) (a : Applicant) (strict : Bool)
    (f : String) (ev : EntityValidation)
    (hf : a.fein = some f) (hne : f ≠ "")
    (hok : validateApplicant env a strict = .ok ev) :
    (ev.errors.filter pFein =
      if isValidFein f then [] else [feinIssue (some f)]) ∧
    isValidFein f = specFeinAmended f := by
  rw [validateApplicant_ok hok]
  refine ⟨?_, isValidFein_eq_spec f⟩
  unfold applicantEntity
  dsimp only
  rw [hf]
  dsimp only [tStr, Option.getD]
  rw [decide_eq_true hne, Bool.true_and]
  cases hv : isValidFein f with
  | true =>
    simp only [hv, Bool.not_true, if_false, if_true, List.filter_append,
      List.filter_nil, List.append_nil, List.nil_append]
    simp [filter_pFein_block, pFein]
  | false =>
    simp only [hv, Bool.not_false, if_true, if_false, List.filter_append]
    simp [filter_pFein_block, List.filter_singleton, feinIssue, pFein]

/-- C8 amended witness: the conventionally formatted FEIN 12-3456789
passes the source check and yields no FEIN-path error. -/
theorem c8_fein_amended_witness :
    ((applicantEntity envTriv applC8b false).errors.filter pFein =
      if isValidFein "12-3456789" then []
      else [feinIssue (some "12-3456789")]) ∧
    isValidFein "12-3456789" = specFeinAmended "12-3456789" :=
  c8_fein_amended envTriv applC8b false "12-3456789"
    (applicantEntity envTriv applC8b false) rfl (by decide) rfl

/-- C8 counterexample: the nine-digit FEIN 123456789 does not match the
claimed pattern two digits, hyphen, seven digits, yet applicant
validation completes and records no invalid-format error for it — the
source accepts any string that strips to nine valid digits. -/
theorem c8_counterexample :
    specFeinPattern "123456789" = false ∧
    isValidFein "123456789" = true ∧
    validateApplicant envTriv applC8 false =
      .ok (applicantEntity envTriv applC8 false) ∧
    (applicantEntity envTriv applC8 false).errors.filter pFein = [] := by
  refine ⟨rfl, rfl, rfl, rfl⟩

/-- Under a money hint, the hint-cleanup strips currency punctuation
from strings and leaves other values unchanged. -/
lemma specCleanFor_money (v : Val) (hk : String)
    (hm : (pySplitFirst hk ":").1 = "money") :
    specCleanFor v (some hk) = match v with
      | .vstr s => .vstr (pyStrip (pyReplace (pyReplace s "$" "") "," ""))
      | w => w := by
  dsimp only [specCleanFor]
  rw [if_pos hm]

/-- Under a number hint, the hint-cleanup strips commas from strings
and leaves other values unchanged. -/
lemma specCleanFor_number (v : Val) (hk : String)
    (hn : (pySplitFirst hk ":").1 = "number") :
    specCleanFor v (some hk) = match v with
      | .vstr s => .vstr (pyStrip (pyReplace s "," ""))
      | w => w := by
  dsimp only [specCleanFor]
  rw [hn]
  simp +decide

/-- Under any hint other than money or number, the hint-cleanup is the
identity. -/
lemma specCleanFor_other (v : Val) (hk : String)
    (hm : (pySplitFirst hk ":").1 ≠ "money")
    (hn : (pySplitFirst hk ":").1 ≠ "number") :
    specCleanFor v (some hk) = v := by
  dsimp only [specCleanFor]
  rw [if_neg hm, if_neg hn]

/-- The date-hint branch of the C9 fallback equation. -/
lemma c9_date_case (pIso : String → Option Int)
    (sfm : Int → String → String) (v : Val) (hk : String)
    (hd : (pySplitFirst hk ":").1 = "date")
    (h : cannotFormat pIso v (some hk) = true) :
    formatValue pIso sfm v (some hk) = specFallback v (some hk) := by
  have hcl : specCleanFor v (some hk) = v :=
    specCleanFor_other v hk (by rw [hd]; decide) (by rw [hd]; decide)
  cases v with
  | vnone => rfl
  | vstr s =>
    dsimp only [formatValue, cannotFormat, specFallback] at h ⊢
    rw [if_pos hd] at h ⊢
    dsimp only [formatDate]
    cases hp : pIso (pyReplace s "Z" "+00:00") with
    | none => rw [hcl]; rfl
    | some dt => rw [hp] at h; simp at h
  | vdatetime d =>
    dsimp only [cannotFormat] at h
    rw [if_pos hd] at h
    simp at h
  | vint n =>
    dsimp only [formatValue, specFallback]
    rw [if_pos hd]
    dsimp only [formatDate]
    rw [hcl]
  | vnum q =>
    dsimp only [formatValue, specFallback]
    rw [if_pos hd]
    dsimp only [formatDate]
    rw [hcl]
  | vbool b =>
    dsimp only [formatValue, specFallback]
    rw [if_pos hd]
    dsimp only [formatDate]
    rw [hcl]
  | vlist l =>
    dsimp only [formatValue, specFallback]
    rw [if_pos hd]
    dsimp only [formatDate]
    rw [hcl]
  | vdict kvs =>
    dsimp only [formatValue, specFallback]
    rw [if_pos hd]
    dsimp only [formatDate]
    rw [hcl]

/-- The money-hint branch of the C9 fallback equation. -/
lemma c9_money_case (pIso : String → Option Int)
    (sfm : Int → String → String) (v : Val) (hk : String)
    (hd : (pySplitFirst hk ":").1 ≠ "date")
    (hm : (pySplitFirst hk ":").1 = "money")
    (h : cannotFormat pIso v (some hk) = true) :
    formatValue pIso sfm v (some hk) = specFallback v (some hk) := by
  have hcl := specCleanFor_money v hk hm
  cases v with
  | vnone => rfl
  | vstr s =>
    dsimp only [cannotFormat] at h
    rw [if_neg hd, if_pos hm, hcl] at h
    dsimp only at h
    dsimp only [formatValue, specFallback]
    rw [if_neg hd, if_pos hm, hcl]
    dsimp only [formatMoney]
    cases ht : toFloat (.vstr (pyStrip (pyReplace (pyReplace s "$" "") "," ""))) with
    | none => rfl
    | some q => rw [ht] at h; simp at h
  | vint n =>
    dsimp only [cannotFormat] at h
    rw [if_neg hd, if_pos hm, hcl] at h
    dsimp only at h
    simp [toFloat] at h
  | vnum q =>
    dsimp only [cannotFormat] at h
    rw [if_neg hd, if_pos hm, hcl] at h
    dsimp only at h
    simp [toFloat] at h
  | vbool b =>
    dsimp only [cannotFormat] at h
    rw [if_neg hd, if_pos hm, hcl] at h
    dsimp only at h
    simp [toFloat] at h
  | vdatetime d =>
    dsimp only [formatValue, specFallback]
    rw [if_neg hd, if_pos hm, hcl]
    rfl
  | vlist l =>
    dsimp only [formatValue, specFallback]
    rw [if_neg hd, if_pos hm, hcl]
    rfl
  | vdict kvs =>
    dsimp only [formatValue, specFallback]
    rw [if_neg hd, if_pos hm, hcl]
    rfl

/-- The number-hint branch of the C9 fallback equation. -/
lemma c9_number_case (pIso : String → Option Int)
    (sfm : Int → String → String) (v : Val) (hk : String)
    (hd : (pySplitFirst hk ":").1 ≠ "date")
    (hm : (pySplitFirst hk ":").1 ≠ "money")
    (hn : (pySplitFirst hk ":").1 = "number")
    (h : cannotFormat pIso v (some hk) = true) :
    formatValue pIso sfm v (some hk) = specFallback v (some hk) := by
  have hcl := specCleanFor_number v hk hn
  cases v with
  | vnone => rfl
  | vstr s =>
    dsimp only [cannotFormat] at h
    rw [if_neg hd, if_neg hm, if_pos hn, hcl] at h
    dsimp only at h
    dsimp only [formatValue, specFallback]
    rw [if_neg hd, if_neg hm, if_pos hn, hcl]
    dsimp only [formatNumber]
    cases ht : toFloat (.vstr (pyStrip (pyReplace s "," ""))) with
    | none => rfl
    | some q =>
      rw [ht] at h
      simp only [Option.isNone_some, Bool.false_or, Bool.and_eq_true,
        decide_eq_true_eq] at h
      dsimp only
      rw [if_pos h.1, if_pos h.2]
  | vint n =>
    dsimp only [cannotFormat] at h
    rw [if_neg hd, if_neg hm, if_pos hn, hcl] at h
    dsimp only [toFloat] at h
    simp only [Option.isNone_some, Bool.false_or, Bool.and_eq_true,
      decide_eq_true_eq] at h
    dsimp only [formatValue, specFallback]
    rw [if_neg hd, if_neg hm, if_pos hn, hcl]
    dsimp only [formatNumber, toFloat]
    rw [if_pos h.1, if_pos h.2]
  | vnum q =>
    dsimp only [cannotFormat] at h
    rw [if_neg hd, if_neg hm, if_pos hn, hcl] at h
    dsimp only [toFloat] at h
    simp only [Option.isNone_some, Bool.false_or, Bool.and_eq_true,
      decide_eq_true_eq] at h
    dsimp only [formatValue, specFallback]
    rw [if_neg hd, if_neg hm, if_pos hn, hcl]
    dsimp only [formatNumber, toFloat]
    rw [if_pos h.1, if_pos h.2]
  | vbool b =>
    dsimp only [cannotFormat] at h
    rw [if_neg hd, if_neg hm, if_pos hn, hcl] at h
    dsimp only [toFloat] at h
    simp only [Option.isNone_some, Bool.false_or, Bool.and_eq_true,
      decide_eq_true_eq] at h
    dsimp only [formatValue, specFallback]
    rw [if_neg hd, if_neg hm, if_pos hn, hcl]
    dsimp only [formatNumber, toFloat]
    rw [if_pos h.1, if_pos h.2]
  | vdatetime d =>
    dsimp only [formatValue, specFallback]
    rw [if_neg hd, if_neg hm, if_pos hn, hcl]
    rfl
  | vlist l =>
    dsimp only [formatValue, specFallback]
    rw [if_neg hd, if_neg hm, if_pos hn, hcl]
    rfl
  | vdict kvs =>
    dsimp only [formatValue, specFallback]
    rw [if_neg hd, if_neg hm, if_pos hn, hcl]
    rfl

/-- The residual-hint branch of the C9 fallback equation: no formatter
applies and the value passes through as its own string form. -/
lemma c9_other_case (pIso : String → Option Int)
    (sfm : Int → String → String) (v : Val) (hk : String)
    (hd : (pySplitFirst hk ":").1 ≠ "date")
    (hm : (pySplitFirst hk ":").1 ≠ "money")
    (hn : (pySplitFirst hk ":").1 ≠ "number") :
    formatValue pIso sfm v (some hk) = specFallback v (some hk) := by
  have hcl := specCleanFor_other v hk hm hn
  cases v with
  | vnone => rfl
  | vstr s =>
    dsimp only [formatValue, specFallback]
    rw [if_neg hd, if_neg hm, if_neg hn, hcl]
  | vint n =>
    dsimp only [formatValue, specFallback]
    rw [if_neg hd, if_neg hm, if_neg hn, hcl]
  | vnum q =>
    dsimp only [formatValue, specFallback]
    rw [if_neg hd, if_neg hm, if_neg hn, hcl]
  | vbool b =>
    dsimp only [formatValue, specFallback]
    rw [if_neg hd, if_neg hm, if_neg hn, hcl]
  | vdatetime d =>
    dsimp only [formatValue, specFallback]
    rw [if_neg hd, if_neg hm, if_neg hn, hcl]
  | vlist l =>
    dsimp only [formatValue, specFallback]
    rw [if_neg hd, if_neg hm, if_neg hn, hcl]
  | vdict kvs =>
    dsimp only [formatValue, specFallback]
    rw [if_neg hd, if_neg hm, if_neg hn, hcl]

/-- C9 amended: formatting is total by construction, and whenever a
value cannot be formatted per its hint the formatter returns the plain
string form of the hint-cleaned value, a None value becoming the empty
string — money and number hints strip currency punctuation before the
fallback engages, so the result is not in general the original value's
own string representation. -/
theorem c9_fallback_amended (pIso : String → Option Int)
    (sfm : Int → String → String) (v : Val) (hint : Option String)
    (h : cannotFormat pIso v hint = true) :
    formatValue pIso sfm v hint = specFallback v hint := by
  cases hint with
  | none => cases v <;> rfl
  | some hk =>
    by_cases hd : (pySplitFirst hk ":").1 = "date"
    · exact c9_date_case pIso sfm v hk hd h
    · by_cases hm : (pySplitFirst hk ":").1 = "money"
      · exact c9_money_case pIso sfm v hk hd hm h
      · by_cases hn : (pySplitFirst hk ":").1 = "number"
        · exact c9_number_case pIso sfm v hk hd hm hn h
        · exact c9_other_case pIso sfm v hk hd hm hn

/-- C9 amended witness: the unparsable money string TBD falls back to
the hint-cleaned string form through the amended rule. -/
theorem c9_fallback_amended_witness :
    cannotFormat pIso0 (.vstr "TBD") (some "money:$") = true ∧
    formatValue pIso0 sfm0 (.vstr "TBD") (some "money:$") =
      specFallback (.vstr "TBD") (some "money:$") :=
  ⟨rfl, c9_fallback_amended pIso0 sfm0 (.vstr "TBD") (some "money:$") rfl⟩

/-- C9 counterexample: the string $12..3 under a money hint cannot be
parsed as a float, and the formatter returns the currency-stripped
string 12..3 — not the value's plain string representation $12..3 as
the claim requires. -/
theorem c9_counterexample :
    cannotFormat pIso0 (.vstr "$12..3") (some "money:$") = true ∧
    formatValue pIso0 sfm0 (.vstr "$12..3") (some "money:$") = "12..3" ∧
    (Val.vstr "$12..3").pyStr = "$12..3" := by
  refine ⟨rfl, rfl, rfl⟩
